import Mathlib

/-!
Verification of the multi-account load-balancing core of the
antigravity-claude-proxy repository.

The executable definitions below are shallow embeddings of the JavaScript
source.  The request executors
(src/cloudcode/streaming-handler.js and src/cloudcode/message-handler.js)
are embedded as trace-producing state machines driven by a finite oracle of
upstream HTTP responses; time-valued sleeps, account-state mutations and
upstream fetches are recorded as explicit trace actions.  Helper modules
that are not part of the provided sources (constants.js, retry-utils.js,
rate-limit-parser.js, errors.js, fallback-config.js, the account-manager
facade) are modelled from the specification, and each such definition is
marked in its doc comment.
-/

namespace Antigravity

/-- Rate-limit error classification, as produced by parseRateLimitReason
(src/cloudcode/rate-limit-parser.js). -/
inductive RLReason where
  | QUOTA_EXHAUSTED
  | RATE_LIMIT_EXCEEDED
  | MODEL_CAPACITY_EXHAUSTED
  | SERVER_ERROR
  | UNKNOWN
deriving Repr, DecidableEq

/-- ASCII lower-casing of one character. -/
def lcChar (c : Char) : Char :=
  if 65 ≤ c.toNat && c.toNat ≤ 90 then Char.ofNat (c.toNat + 32) else c

/-- ASCII lower-casing of a character list (JavaScript toLowerCase on the
ASCII bodies involved here). -/
def lowerChars (l : List Char) : List Char := l.map lcChar

/-- True when pat is a prefix of hay. -/
def isPrefixChars : List Char → List Char → Bool
  | [], _ => true
  | _ :: _, [] => false
  | p :: ps, h :: hs => p == h && isPrefixChars ps hs

/-- True when pat occurs as a contiguous substring of hay. -/
def hasSubChars (hay pat : List Char) : Bool :=
  match hay with
  | [] => pat.isEmpty
  | _ :: t => isPrefixChars pat hay || hasSubChars t pat

/-- True when the pattern occurs as a substring of s (JavaScript
String.prototype.includes). -/
def containsSubstr (s pat : String) : Bool :=
  hasSubChars s.data pat.data

/-- Characters of s after the first occurrence of pat, if any. -/
def afterSubChars (hay pat : List Char) : Option (List Char) :=
  match hay with
  | [] => none
  | _ :: t => if isPrefixChars pat hay then some (hay.drop pat.length) else afterSubChars t pat

/-- Modelled from the spec: src/constants.js is not under src/.
Maximum in-place retries for capacity exhaustion (spec section 4.3 and
scenario 4: MAX_CAPACITY_RETRIES = 3). -/
def MAX_CAPACITY_RETRIES : Nat := 3

/-- Modelled from the spec: src/constants.js is not under src/.
Tiered sleeps for in-place capacity retries (spec scenario 4:
tiers 1 s, 5 s, 15 s). -/
def CAPACITY_BACKOFF_TIERS_MS : List Nat := [1000, 5000, 15000]

/-- Modelled from the spec: src/constants.js is not under src/.
Fallback capacity-retry sleep used when a tier entry is absent; the spec
names the tunable without fixing its value, no theorem depends on it. -/
def CAPACITY_RETRY_DELAY_MS : Nat := 2000

/-- Modelled from the spec: src/constants.js is not under src/.
Longest pool-wide reset the executor will wait out in place rather than
fall back or fail (spec scenario 2: threshold 120000 ms). -/
def MAX_WAIT_BEFORE_ERROR_MS : Nat := 120000

/-- Modelled from the spec: src/constants.js is not under src/.
Consecutive-failure threshold that triggers the extended cooldown; the spec
names the tunable without fixing its value, no theorem depends on it. -/
def MAX_CONSECUTIVE_FAILURES : Nat := 3

/-- Modelled from the spec: src/constants.js is not under src/.
Synthetic rate-limit applied after repeated non-rate-limit failures; the
spec names the tunable without fixing its value, no theorem depends on it. -/
def EXTENDED_COOLDOWN_MS : Nat := 600000

/-- Modelled from the spec: src/constants.js is not under src/.
Backoff tiers for QUOTA_EXHAUSTED (spec section 4.3: 60 s, 5 min, ...;
scenario 3 fixes tier 0 at 60 s). -/
def QUOTA_EXHAUSTED_BACKOFF_TIERS_MS : List Nat := [60000, 300000, 900000]

/-- Modelled from the spec: src/constants.js is not under src/.
Lower bound for every smart-backoff value; the spec names the tunable
without fixing its value, no theorem depends on it. -/
def MIN_BACKOFF_MS : Nat := 10000

/-- Modelled from the spec: src/constants.js is not under src/.
Fixed backoff per non-quota error type (spec section 4.3 step 4); the spec
does not fix the values, no theorem depends on them. -/
def BACKOFF_BY_ERROR_TYPE : RLReason → Nat
  | .RATE_LIMIT_EXCEEDED => 30000
  | .MODEL_CAPACITY_EXHAUSTED => 15000
  | .SERVER_ERROR => 10000
  | _ => 10000

/-- Modelled from the spec: src/cloudcode/rate-limit-parser.js is not under
src/.  Classifies a 429/5xx body into an error type; behaviour fixed by the
repository test vectors in tests/test-smart-backoff.cjs. -/
def parseRateLimitReason (text : String) : RLReason :=
  let t := lowerChars text.data
  if hasSubChars t "quota".data then .QUOTA_EXHAUSTED
  else if hasSubChars t "capacity".data || hasSubChars t "overload".data then
    .MODEL_CAPACITY_EXHAUSTED
  else if hasSubChars t "too many requests".data || hasSubChars t "rate limit".data then
    .RATE_LIMIT_EXCEEDED
  else if hasSubChars t "internal".data || hasSubChars t "server error".data then
    .SERVER_ERROR
  else .UNKNOWN

/-- Modelled from the spec: src/cloudcode/retry-utils.js is not under src/.
Capacity-marker match on an error body (spec glossary: capacity exhaustion
is distinguished from quota by body markers; the integration tests use the
marker model_capacity_exhausted). -/
def isModelCapacityExhausted (text : String) : Bool :=
  let t := lowerChars text.data
  hasSubChars t "model_capacity_exhausted".data ||
    hasSubChars t "capacity exhausted".data || hasSubChars t "overloaded".data

/-- Modelled from the spec: src/cloudcode/retry-utils.js is not under src/.
Permanent-auth marker match on a 401 body (spec section 4.3: 401 +
permanent-auth marker in body). -/
def isPermanentAuthFailure (text : String) : Bool :=
  let t := lowerChars text.data
  hasSubChars t "invalid_grant".data ||
    hasSubChars t "expired or revoked".data ||
    hasSubChars t "account has been disabled".data

/-- Longest digit run at the head of the character list, and the rest. -/
def spanDigits : List Char → List Char × List Char
  | [] => ([], [])
  | c :: cs =>
    if c.isDigit then
      let p := spanDigits cs
      (c :: p.1, p.2)
    else ([], c :: cs)

/-- Numeric value of a digit run. -/
def digitsToNat (ds : List Char) : Nat :=
  ds.foldl (fun acc c => acc * 10 + (c.toNat - 48)) 0

/-- Drops leading spaces. -/
def dropSpaces : List Char → List Char
  | [] => []
  | c :: cs => if c == ' ' then dropSpaces cs else c :: cs

/-- Modelled from the spec: src/cloudcode/rate-limit-parser.js is not under
src/.  Parses the duration that follows the retry-after marker in an error
body: an optional minutes part Nm, optional spaces, then a seconds part Ns
(spec section 4.3 reset-time parser; vectors in
tests/test-smart-backoff.cjs). -/
def parseDurChars (cs : List Char) : Option Nat :=
  let p1 := spanDigits cs
  if p1.1.isEmpty then none
  else
    match p1.2 with
    | 'm' :: r2 =>
      let p2 := spanDigits (dropSpaces r2)
      if p2.1.isEmpty then none
      else
        match p2.2 with
        | 's' :: _ => some ((digitsToNat p1.1 * 60 + digitsToNat p2.1) * 1000)
        | _ => none
    | 's' :: _ => some (digitsToNat p1.1 * 1000)
    | _ => none

/-- Modelled from the spec: src/cloudcode/rate-limit-parser.js is not under
src/.  Body half of parseResetTime: the duration after the first
case-insensitive occurrence of the retry-after marker, else none. -/
def parseBodyReset (text : String) : Option Nat :=
  match afterSubChars (lowerChars text.data) "retry after ".data with
  | some after => parseDurChars after
  | none => none

/-- Modelled from the spec: src/cloudcode/rate-limit-parser.js is not under
src/.  parseResetTime(response, text): prefers the Retry-After header
(integer seconds), else the body duration, else none (spec section 4.3;
vectors in tests/test-smart-backoff.cjs). -/
def parseResetTime (retryAfter : Option String) (text : String) : Option Nat :=
  match retryAfter with
  | some h =>
    if h.data ≠ [] && h.data.all Char.isDigit then some (digitsToNat h.data * 1000)
    else parseBodyReset text
  | none => parseBodyReset text

/-- Modelled from the spec: src/cloudcode/retry-utils.js is not under src/.
Smart-backoff value for a classified reason (spec section 4.3 steps 2-5:
quota uses the tier for the attempt clamped to the last tier, other known
types use the fixed per-type value, unknown uses the minimum; the final
value is lower-bounded by MIN_BACKOFF_MS). -/
def smartBackoffByReason (reason : RLReason) (attempt : Nat) : Nat :=
  match reason with
  | .QUOTA_EXHAUSTED =>
    max (QUOTA_EXHAUSTED_BACKOFF_TIERS_MS.getD
          (min attempt (QUOTA_EXHAUSTED_BACKOFF_TIERS_MS.length - 1)) MIN_BACKOFF_MS)
        MIN_BACKOFF_MS
  | .UNKNOWN => MIN_BACKOFF_MS
  | r => max (BACKOFF_BY_ERROR_TYPE r) MIN_BACKOFF_MS

/-- Modelled from the spec: src/cloudcode/retry-utils.js is not under src/.
calculateSmartBackoff(errorText, resetMsFromServer, attempt): a positive
server-supplied reset always wins, otherwise the classified backoff (spec
section 4.3 step 1; test vector: calculateSmartBackoff of 5000 returns
5000). -/
def calculateSmartBackoff (errorText : String) (resetMs : Option Nat) (attempt : Nat) : Nat :=
  match resetMs with
  | some r => if 0 < r then r else smartBackoffByReason (parseRateLimitReason errorText) attempt
  | none => smartBackoffByReason (parseRateLimitReason errorText) attempt

/-- formatDuration from src/utils/helpers.js: millisecond count rendered as
h/m/s segments, larger units omitted when zero. -/
def formatDuration (ms : Nat) : String :=
  let seconds := ms / 1000
  let hours := seconds / 3600
  let minutes := (seconds % 3600) / 60
  let secs := seconds % 60
  if hours > 0 then s!"{hours}h{minutes}m{secs}s"
  else if minutes > 0 then s!"{minutes}m{secs}s"
  else s!"{secs}s"

/-- Modelled from the spec: src/utils/helpers.js getExponentialBackoffMs is
not in the provided fragment; spec section 4.3: exponential backoff seeded
at 500 ms. -/
def getExponentialBackoffMs (base k : Nat) : Nat := base * 2 ^ k

/-- JavaScript-style a or-else b on an optional number: a wins unless it is
absent or zero (falsy). -/
def jsOrNat (a : Option Nat) (b : Nat) : Nat :=
  match a with
  | some x => if x == 0 then b else x
  | none => b

/-- Modelled from the spec: src/fallback-config.js is not under src/.
getFallbackModel chain lite to flash to pro (spec scenario 5 and
tests/test-recursive-fallback.cjs), absent elsewhere. -/
def getFallbackModel (m : String) : Option String :=
  if m == "gemini-2.5-flash-lite" then some "gemini-2.5-flash"
  else if m == "gemini-2.5-flash" then some "gemini-2.5-pro"
  else none

/-- One upstream HTTP response, as seen by an executor attempt: status,
optional Retry-After header, error body text, and whether its SSE stream
produced content events (2xx only; an empty stream makes the streaming
consumer raise EmptyResponseError). -/
structure UpResp where
  status : Nat
  retryAfter : Option String
  body : String
  hasContent : Bool
deriving Repr, DecidableEq

/-- response.ok of the fetch API: status in the 2xx range. -/
def respOk (r : UpResp) : Bool := 200 ≤ r.status && r.status < 300

/-- Attempt-level trace actions: everything an executor attempt does besides
pure control flow.  fetch is the main request of an endpoint iteration,
refetch a re-issue of the same request inside the empty-response retry
loop. -/
inductive AAct where
  | fetch (endpointIdx : Nat)
  | refetch
  | sleepMs (ms : Nat)
  | capacitySleep (ms : Nat)
  | clearCaches
  | markInvalid (reason : String)
  | markRateLimited (waitMs : Option Nat)
  | clearRateLimitState
  | notifySuccess
  | emitFallbackSeq
deriving Repr, DecidableEq

/-- Structural tag of an error thrown out of an attempt.  The source
classifies thrown errors by their message text (RATE_LIMITED,
AUTH_INVALID_PERMANENT, API error, and so on); the tag records the same
distinction the message carries. -/
inductive ThrownKind where
  | rateLimited
  | rateLimitedRetry
  | authPermanent
  | authRetry
  | apiError (status : Nat)
  | emptyRetryFailed (status : Nat)
deriving Repr, DecidableEq

/-- Result of one executor attempt (the endpoint loop of one selected
account).  fellThrough models the endpoint list being exhausted with
lastError still null; outOfResponses is the oracle running dry and occurs
in no claim scenario. -/
inductive LoopOutcome where
  | success
  | thrown (kind : ThrownKind) (msg : String)
  | fellThrough
  | outOfResponses
deriving Repr, DecidableEq

/-- Tunables consumed by the executors, one field per constant imported
from src/constants.js. -/
structure Cfg where
  numEndpoints : Nat
  maxCapacityRetries : Nat
  capacityBackoffTiers : List Nat
  capacityRetryDelay : Nat
  maxEmptyRetries : Nat
  failAttempt : Nat
deriving Repr, DecidableEq

/-- Control state inside one streaming attempt: either at the top of the
endpoint while-loop (streaming-handler.js line 159) or inside the
empty-response for-loop (line 277) with the response currently being
streamed. -/
inductive SPhase where
  | endpointLoop (endpointIndex capacityRetryCount : Nat)
      (lastError : Option (ThrownKind × String))
  | emptyLoop (emptyRetries : Nat) (cur : UpResp) (endpointIndex capacityRetryCount : Nat)
deriving Repr, DecidableEq

/-- Decision taken by the streaming endpoint loop on a non-2xx response
(the classification table of spec section 4.3, as implemented at
streaming-handler.js lines 181-271). -/
inductive EpStep where
  | authPermanentStop (msg : String)
  | authTransient
  | capacityRetry (waitMs : Nat)
  | rateLimitStop (smartWaitMs : Nat) (msg : String)
  | advance (sleep1s : Bool) (le2 : ThrownKind × String)
deriving Repr, DecidableEq

/-- Classification of a non-2xx response by the streaming endpoint loop
(streaming-handler.js lines 181-271): permanent/transient 401; in-place
capacity retry when the body carries the capacity marker or the status is
503 and retries remain, the wait being the server reset, else the tier for
this retry, else the fixed delay; 429 otherwise marks with the smart
backoff and throws RATE_LIMITED; anything else records lastError, sleeps
1 s when 5xx, and advances the endpoint. -/
def classifyStreamError (cfg : Cfg) (cap : Nat) (r : UpResp) : EpStep :=
  if r.status == 401 then
    if isPermanentAuthFailure r.body then
      .authPermanentStop ("AUTH_INVALID_PERMANENT: " ++ r.body)
    else .authTransient
  else if r.status == 429 || r.status == 503 || isModelCapacityExhausted r.body then
    if (isModelCapacityExhausted r.body || r.status == 503) &&
        cap < cfg.maxCapacityRetries then
      .capacityRetry (jsOrNat (parseResetTime r.retryAfter r.body)
        (jsOrNat (cfg.capacityBackoffTiers.get? cap) cfg.capacityRetryDelay))
    else if r.status == 429 then
      .rateLimitStop
        (calculateSmartBackoff r.body (parseResetTime r.retryAfter r.body) cfg.failAttempt)
        ("RATE_LIMITED: " ++ r.body)
    else
      .advance (500 ≤ r.status)
        (.apiError r.status, "API error " ++ toString r.status ++ ": " ++ r.body)
  else
    .advance (500 ≤ r.status)
      (.apiError r.status, "API error " ++ toString r.status ++ ": " ++ r.body)

/-- Decision taken on a failed refetch inside the empty-response retry loop
(streaming-handler.js lines 323-385). -/
inductive ERStep where
  | retryStream
  | rateLimitStop (resetMs : Option Nat) (msg : String)
  | authPermanentStop (msg : String)
  | authTransientThrow (le2 : ThrownKind × String)
  | serverRetry
  | failThrow (le2 : ThrownKind × String)
deriving Repr, DecidableEq

/-- Classification of a refetched response inside the empty-response retry
loop (streaming-handler.js lines 323-385): a 2xx is streamed by the next
iteration; a 429 marks the account rate-limited with the parsed reset time
as is and throws; a 401 is permanent or throws the transient retry error
(caught at the endpoint boundary, which advances); a 5xx sleeps 1 s and
refetches once more; anything else throws the retry-failed error (also
caught at the endpoint boundary). -/
def classifyEmptyRetry (r2 : UpResp) : ERStep :=
  if respOk r2 then .retryStream
  else if r2.status == 429 then
    .rateLimitStop (parseResetTime r2.retryAfter r2.body)
      ("429 RESOURCE_EXHAUSTED during retry: " ++ r2.body)
  else if r2.status == 401 then
    if isPermanentAuthFailure r2.body then
      .authPermanentStop ("AUTH_INVALID_PERMANENT: " ++ r2.body)
    else .authTransientThrow (.authRetry, "401 AUTH_INVALID during retry: " ++ r2.body)
  else if 500 ≤ r2.status then .serverRetry
  else
    .failThrow (.emptyRetryFailed r2.status,
      "Empty response retry failed: " ++ toString r2.status ++ " - " ++ r2.body)

/-- One endpoint-loop iteration as trace prefix plus control transfer:
done ends the attempt, cont recurses on the remaining responses with the
next control state, serverRetry is the empty-retry 5xx path that consumes a
second response. -/
inductive IterPlan where
  | done (acts : List AAct) (out : LoopOutcome)
  | cont (pre : List AAct) (next : SPhase)
  | serverRetry (pre : List AAct)
deriving Repr, DecidableEq

/-- Exit value of the endpoint while-loop
(streaming-handler.js lines 404-411): throw lastError when set, fall
through to the next outer attempt otherwise. -/
def endpointExit (le : Option (ThrownKind × String)) : LoopOutcome :=
  match le with
  | some ke => .thrown ke.1 ke.2
  | none => .fellThrough

/-- One iteration of the streaming endpoint while-loop on response r
(streaming-handler.js lines 159-272): exit if the endpoint list is
exhausted; stream a 2xx via the empty-retry loop; otherwise act on the
error classification. -/
def epIter (cfg : Cfg) (idx cap : Nat) (le : Option (ThrownKind × String))
    (r : UpResp) : IterPlan :=
  if cfg.numEndpoints ≤ idx then .done [] (endpointExit le)
  else if respOk r then .cont [AAct.fetch idx] (.emptyLoop 0 r idx cap)
  else
    match classifyStreamError cfg cap r with
    | .authPermanentStop msg =>
      .done [AAct.fetch idx, AAct.markInvalid "Token revoked - re-authentication required"]
        (.thrown .authPermanent msg)
    | .authTransient =>
      .cont [AAct.fetch idx, AAct.clearCaches] (.endpointLoop (idx + 1) cap le)
    | .capacityRetry waitMs =>
      .cont [AAct.fetch idx, AAct.capacitySleep waitMs] (.endpointLoop idx (cap + 1) le)
    | .rateLimitStop smart msg =>
      .done [AAct.fetch idx, AAct.markRateLimited (some smart)] (.thrown .rateLimited msg)
    | .advance slp le2 =>
      .cont (AAct.fetch idx :: (if slp then [AAct.sleepMs 1000] else []))
        (.endpointLoop (idx + 1) cap (some le2))

/-- One iteration of the empty-response retry for-loop with refetched
response r2 (streaming-handler.js lines 277-387): return on content, emit
the synthetic fallback once retries are exhausted, otherwise back off,
refetch and act on the refetch classification; thrown transient-auth and
retry-failed errors are caught by the endpoint boundary, which records
lastError and advances the endpoint. -/
def erIter (cfg : Cfg) (k : Nat) (cur : UpResp) (idx cap : Nat) (r2 : UpResp) : IterPlan :=
  if cur.hasContent then .done [AAct.clearRateLimitState, AAct.notifySuccess] .success
  else if cfg.maxEmptyRetries ≤ k then .done [AAct.emitFallbackSeq] .success
  else
    let bk := getExponentialBackoffMs 500 k
    match classifyEmptyRetry r2 with
    | .retryStream =>
      .cont [AAct.sleepMs bk, AAct.refetch] (.emptyLoop (k + 1) r2 idx cap)
    | .rateLimitStop resetMs msg =>
      .done [AAct.sleepMs bk, AAct.refetch, AAct.markRateLimited resetMs]
        (.thrown .rateLimitedRetry msg)
    | .authPermanentStop msg =>
      .done [AAct.sleepMs bk, AAct.refetch,
        AAct.markInvalid "Token revoked - re-authentication required"]
        (.thrown .authPermanent msg)
    | .authTransientThrow le2 =>
      .cont [AAct.sleepMs bk, AAct.refetch, AAct.clearCaches]
        (.endpointLoop (idx + 1) cap (some le2))
    | .serverRetry => .serverRetry [AAct.sleepMs bk, AAct.refetch]
    | .failThrow le2 =>
      .cont [AAct.sleepMs bk, AAct.refetch] (.endpointLoop (idx + 1) cap (some le2))

/-- Control state after the second refetch of the empty-retry 5xx path
(streaming-handler.js lines 357-380): a 2xx is streamed by the next
iteration, anything else throws the retry-failed error, caught at the
endpoint boundary which advances the endpoint. -/
def srNext (k idx cap : Nat) (r2 r3 : UpResp) : SPhase :=
  if respOk r3 then .emptyLoop (k + 1) r3 idx cap
  else
    .endpointLoop (idx + 1) cap (some (.emptyRetryFailed r3.status,
      "Empty response retry failed: " ++ toString r3.status ++ " - " ++ r2.body))

/-- The endpoint/empty-retry loop of sendMessageStream
(src/cloudcode/streaming-handler.js lines 154-411), driven by the ordered
list of upstream responses; each loop iteration consumes the response its
fetch obtains.  Produces the attempt trace and the attempt outcome. -/
def streamAttemptRun (cfg : Cfg) : SPhase → List UpResp → List AAct × LoopOutcome
  | .endpointLoop idx _ le, [] =>
    if cfg.numEndpoints ≤ idx then ([], endpointExit le)
    else ([], .outOfResponses)
  | .endpointLoop idx cap le, r :: rest =>
    match epIter cfg idx cap le r with
    | .done acts out => (acts, out)
    | .cont pre ph2 =>
      let t := streamAttemptRun cfg ph2 rest
      (pre ++ t.1, t.2)
    | .serverRetry pre => (pre, .outOfResponses)
  | .emptyLoop k cur _ _, [] =>
    if cur.hasContent then
      ([AAct.clearRateLimitState, AAct.notifySuccess], .success)
    else if cfg.maxEmptyRetries ≤ k then
      ([AAct.emitFallbackSeq], .success)
    else ([AAct.sleepMs (getExponentialBackoffMs 500 k)], .outOfResponses)
  | .emptyLoop k cur idx cap, r2 :: rest2 =>
    match erIter cfg k cur idx cap r2 with
    | .done acts out => (acts, out)
    | .cont pre ph2 =>
      let t := streamAttemptRun cfg ph2 rest2
      (pre ++ t.1, t.2)
    | .serverRetry pre =>
      match rest2 with
      | [] => (pre ++ [AAct.sleepMs 1000], .outOfResponses)
      | r3 :: rest3 =>
        let t := streamAttemptRun cfg (srNext k idx cap r2 r3) rest3
        (pre ++ AAct.sleepMs 1000 :: AAct.refetch :: t.1, t.2)


/-- The endpoint loop of sendMessage
(src/cloudcode/message-handler.js lines 135-296): like the streaming loop
but with no empty-response retry, capacity in-place retry only on a 429
whose body carries the capacity marker, and 5xx advancing the endpoint
without recording lastError. -/
def messageAttemptRun (cfg : Cfg) : Nat → Nat → Option (ThrownKind × String) →
    List UpResp → List AAct × LoopOutcome
  | idx, _, le, [] =>
    if cfg.numEndpoints ≤ idx then
      ([], match le with
           | some ke => .thrown ke.1 ke.2
           | none => .fellThrough)
    else ([], .outOfResponses)
  | idx, cap, le, r :: rest =>
    if cfg.numEndpoints ≤ idx then
      ([], match le with
           | some ke => .thrown ke.1 ke.2
           | none => .fellThrough)
    else if respOk r then
      ([AAct.fetch idx, AAct.clearRateLimitState, AAct.notifySuccess], .success)
    else if r.status == 401 then
      if isPermanentAuthFailure r.body then
        ([AAct.fetch idx, AAct.markInvalid "Token revoked - re-authentication required"],
         .thrown .authPermanent ("AUTH_INVALID_PERMANENT: " ++ r.body))
      else
        let t := messageAttemptRun cfg (idx + 1) cap le rest
        (AAct.fetch idx :: AAct.clearCaches :: t.1, t.2)
    else if r.status == 429 then
      if isModelCapacityExhausted r.body && cap < cfg.maxCapacityRetries then
        let waitMs := jsOrNat (parseResetTime r.retryAfter r.body)
          (jsOrNat (cfg.capacityBackoffTiers.get? cap) cfg.capacityRetryDelay)
        let t := messageAttemptRun cfg idx (cap + 1) le rest
        (AAct.fetch idx :: AAct.capacitySleep waitMs :: t.1, t.2)
      else
        let resetMs := parseResetTime r.retryAfter r.body
        let smart := calculateSmartBackoff r.body resetMs cfg.failAttempt
        ([AAct.fetch idx, AAct.markRateLimited (some smart)],
         .thrown .rateLimited ("RATE_LIMITED: " ++ r.body))
    else if 500 ≤ r.status then
      let t := messageAttemptRun cfg (idx + 1) cap le rest
      (AAct.fetch idx :: AAct.sleepMs 1000 :: t.1, t.2)
    else if 400 ≤ r.status then
      let le2 := some (ThrownKind.apiError r.status,
        "API error " ++ toString r.status ++ ": " ++ r.body)
      let t := messageAttemptRun cfg (idx + 1) cap le2 rest
      (AAct.fetch idx :: t.1, t.2)
    else
      ([AAct.fetch idx, AAct.clearRateLimitState, AAct.notifySuccess], .success)


/-- Modelled from the spec: src/errors.js is not under src/.
isRateLimitError, structurally: the errors the source throws with the
RATE_LIMITED marker and the 429 RESOURCE_EXHAUSTED retry error. -/
def isRateLimitErrorK : ThrownKind → Bool
  | .rateLimited => true
  | .rateLimitedRetry => true
  | _ => false

/-- Modelled from the spec: src/errors.js is not under src/.
isAuthError, structurally: the errors the source throws with an
AUTH_INVALID marker. -/
def isAuthErrorK : ThrownKind → Bool
  | .authPermanent => true
  | .authRetry => true
  | _ => false

/-- The 5xx test of the outer catch (message text mentioning a 5xx status),
structurally: an API or empty-retry error whose recorded status is 5xx. -/
def isServerErrorK : ThrownKind → Bool
  | .apiError s => 500 ≤ s
  | .emptyRetryFailed s => 500 ≤ s
  | _ => false

/-- The RESOURCE_EXHAUSTED error text built at streaming-handler.js line 107
and message-handler.js line 88; iso stands in for the Date toISOString
rendering of now + minWaitMs. -/
def resourceExhaustedMsg (model : String) (minWaitMs : Nat) (iso : Nat → String) : String :=
  "RESOURCE_EXHAUSTED: Rate limited on " ++ model ++ ". Quota will reset after " ++
    formatDuration minWaitMs ++ ". Next available: " ++ iso minWaitMs

/-- Outer-loop trace actions of one executor call. -/
inductive Act where
  | clearExpired
  | selectAccount
  | sleepMs (ms : Nat)
  | notifyRateLimit
  | notifyFailure
  | extendedCooldownMark (ms : Nat)
  | att (a : AAct)
deriving Repr, DecidableEq

/-- Result of one executor call: success, recursion into the fallback
model, a thrown error (by message), or the input oracle running dry. -/
inductive OuterOutcome where
  | success
  | fallbackTo (model : String)
  | thrown (msg : String)
  | outOfInputs
deriving Repr, DecidableEq

/-- What the pool presents to one iteration of the outer retry loop:
either no account is available (with the all-rate-limited flag and the
minimum wait), or selectAccount returned a null account with a wait, or an
account was selected, in which case the iteration consumes the attempt's
upstream responses; consecutiveFailures is the health-tracker reading used
by the 5xx catch branch. -/
inductive SelInput where
  | noAvail (allRateLimited : Bool) (minWaitMs : Nat)
  | selNull (waitMs : Nat)
  | selAcc (consecutiveFailures : Nat) (responses : List UpResp)
deriving Repr, DecidableEq

/-- The outer retry loop of sendMessageStream
(src/cloudcode/streaming-handler.js lines 74-493): per iteration it clears
expired limits, handles the no-account branches, or runs one attempt and
classifies its outcome; the all-rate-limited wait branch decrements the
attempt counter before continuing.  After the loop: fallback model if
enabled and available, else the Max retries exceeded error. -/
def sendMessageStreamLoop (cfg : Cfg) (fallbackEnabled : Bool) (model : String)
    (iso : Nat → String) (maxAttempts : Nat) : Nat → List SelInput → List Act × OuterOutcome
  | attempt, [] =>
    if maxAttempts ≤ attempt then
      if fallbackEnabled then
        match getFallbackModel model with
        | some fm => ([], .fallbackTo fm)
        | none => ([], .thrown "Max retries exceeded")
      else ([], .thrown "Max retries exceeded")
    else ([], .outOfInputs)
  | attempt, inp :: rest =>
    if maxAttempts ≤ attempt then
      if fallbackEnabled then
        match getFallbackModel model with
        | some fm => ([], .fallbackTo fm)
        | none => ([], .thrown "Max retries exceeded")
      else ([], .thrown "Max retries exceeded")
    else
        match inp with
        | .noAvail true minWait =>
          if MAX_WAIT_BEFORE_ERROR_MS < minWait then
            if fallbackEnabled then
              match getFallbackModel model with
              | some fm => ([Act.clearExpired], .fallbackTo fm)
              | none => ([Act.clearExpired], .thrown (resourceExhaustedMsg model minWait iso))
            else ([Act.clearExpired], .thrown (resourceExhaustedMsg model minWait iso))
          else
            let t := sendMessageStreamLoop cfg fallbackEnabled model iso maxAttempts attempt rest
            (Act.clearExpired :: Act.sleepMs (minWait + 500) :: Act.clearExpired :: t.1, t.2)
        | .noAvail false _ =>
          ([Act.clearExpired], .thrown ("No accounts available for " ++ model))
        | .selNull w =>
          let t := sendMessageStreamLoop cfg fallbackEnabled model iso maxAttempts (attempt + 1) rest
          (Act.clearExpired :: Act.selectAccount ::
            Act.sleepMs (if 0 < w then w + 500 else 1000) :: t.1, t.2)
        | .selAcc cf resps =>
          let a := streamAttemptRun cfg (.endpointLoop 0 0 none) resps
          let pre := Act.clearExpired :: Act.selectAccount :: a.1.map Act.att
          match a.2 with
          | .success => (pre, .success)
          | .outOfResponses => (pre, .outOfInputs)
          | .fellThrough =>
            let t := sendMessageStreamLoop cfg fallbackEnabled model iso maxAttempts (attempt + 1) rest
            (pre ++ t.1, t.2)
          | .thrown k msg =>
            if isRateLimitErrorK k then
              let t := sendMessageStreamLoop cfg fallbackEnabled model iso maxAttempts (attempt + 1) rest
              (pre ++ Act.notifyRateLimit :: t.1, t.2)
            else if isAuthErrorK k then
              let t := sendMessageStreamLoop cfg fallbackEnabled model iso maxAttempts (attempt + 1) rest
              (pre ++ t.1, t.2)
            else if isServerErrorK k then
              let t := sendMessageStreamLoop cfg fallbackEnabled model iso maxAttempts (attempt + 1) rest
              (pre ++ Act.notifyFailure ::
                ((if MAX_CONSECUTIVE_FAILURES ≤ cf then
                    [Act.extendedCooldownMark EXTENDED_COOLDOWN_MS] else []) ++ t.1), t.2)
            else (pre, .thrown msg)


/-- The outer retry loop of sendMessage
(src/cloudcode/message-handler.js lines 57-378): identical shape to the
streaming loop but running the non-streaming endpoint loop. -/
def sendMessageLoop (cfg : Cfg) (fallbackEnabled : Bool) (model : String)
    (iso : Nat → String) (maxAttempts : Nat) : Nat → List SelInput → List Act × OuterOutcome
  | attempt, [] =>
    if maxAttempts ≤ attempt then
      if fallbackEnabled then
        match getFallbackModel model with
        | some fm => ([], .fallbackTo fm)
        | none => ([], .thrown "Max retries exceeded")
      else ([], .thrown "Max retries exceeded")
    else ([], .outOfInputs)
  | attempt, inp :: rest =>
    if maxAttempts ≤ attempt then
      if fallbackEnabled then
        match getFallbackModel model with
        | some fm => ([], .fallbackTo fm)
        | none => ([], .thrown "Max retries exceeded")
      else ([], .thrown "Max retries exceeded")
    else
        match inp with
        | .noAvail true minWait =>
          if MAX_WAIT_BEFORE_ERROR_MS < minWait then
            if fallbackEnabled then
              match getFallbackModel model with
              | some fm => ([Act.clearExpired], .fallbackTo fm)
              | none => ([Act.clearExpired], .thrown (resourceExhaustedMsg model minWait iso))
            else ([Act.clearExpired], .thrown (resourceExhaustedMsg model minWait iso))
          else
            let t := sendMessageLoop cfg fallbackEnabled model iso maxAttempts attempt rest
            (Act.clearExpired :: Act.sleepMs (minWait + 500) :: Act.clearExpired :: t.1, t.2)
        | .noAvail false _ =>
          ([Act.clearExpired], .thrown ("No accounts available for " ++ model))
        | .selNull w =>
          let t := sendMessageLoop cfg fallbackEnabled model iso maxAttempts (attempt + 1) rest
          (Act.clearExpired :: Act.selectAccount ::
            Act.sleepMs (if 0 < w then w + 500 else 1000) :: t.1, t.2)
        | .selAcc cf resps =>
          let a := messageAttemptRun cfg 0 0 none resps
          let pre := Act.clearExpired :: Act.selectAccount :: a.1.map Act.att
          match a.2 with
          | .success => (pre, .success)
          | .outOfResponses => (pre, .outOfInputs)
          | .fellThrough =>
            let t := sendMessageLoop cfg fallbackEnabled model iso maxAttempts (attempt + 1) rest
            (pre ++ t.1, t.2)
          | .thrown k msg =>
            if isRateLimitErrorK k then
              let t := sendMessageLoop cfg fallbackEnabled model iso maxAttempts (attempt + 1) rest
              (pre ++ Act.notifyRateLimit :: t.1, t.2)
            else if isAuthErrorK k then
              let t := sendMessageLoop cfg fallbackEnabled model iso maxAttempts (attempt + 1) rest
              (pre ++ t.1, t.2)
            else if isServerErrorK k then
              let t := sendMessageLoop cfg fallbackEnabled model iso maxAttempts (attempt + 1) rest
              (pre ++ Act.notifyFailure ::
                ((if MAX_CONSECUTIVE_FAILURES ≤ cf then
                    [Act.extendedCooldownMark EXTENDED_COOLDOWN_MS] else []) ++ t.1), t.2)
            else (pre, .thrown msg)


/-- The recursion of sendMessageStream at streaming-handler.js lines 86-110
specialized to pools in which every model of the fallback chain is fully
rate-limited with minWaitOf model above the threshold: each level either
recurses into the fallback model or throws RESOURCE_EXHAUSTED.  The fuel
only bounds the chain; outOfInputs marks fuel exhaustion or leaving the
all-exhausted regime. -/
def exhaustedResolve (fallbackEnabled : Bool) (minWaitOf : String → Nat)
    (iso : Nat → String) : Nat → String → OuterOutcome
  | 0, _ => .outOfInputs
  | fuel + 1, m =>
    if MAX_WAIT_BEFORE_ERROR_MS < minWaitOf m then
      if fallbackEnabled then
        match getFallbackModel m with
        | some fm => exhaustedResolve fallbackEnabled minWaitOf iso fuel fm
        | none => .thrown (resourceExhaustedMsg m (minWaitOf m) iso)
      else .thrown (resourceExhaustedMsg m (minWaitOf m) iso)
    else .outOfInputs

/-- Modelled from the spec: the account-manager facade is not under src/
(spec section 3).  Per-(account, model) transient rate-limit entry. -/
structure RateLimitInfo where
  isRateLimited : Bool
  resetTime : Nat
deriving Repr, DecidableEq

/-- Modelled from the spec: the account-manager facade is not under src/
(spec section 3).  One pool account, restricted to the fields the claims
touch. -/
structure Account where
  email : String
  enabled : Bool
  isInvalid : Bool
  invalidReason : Option String
  modelRateLimits : List (String × RateLimitInfo)
deriving Repr, DecidableEq

/-- Rate-limit entry of an account for a model, if present. -/
def lookupRL (ls : List (String × RateLimitInfo)) (m : String) : Option RateLimitInfo :=
  match ls with
  | [] => none
  | p :: rest => if p.1 == m then some p.2 else lookupRL rest m

/-- Replaces or adds the rate-limit entry for a model. -/
def setRL (ls : List (String × RateLimitInfo)) (m : String) (v : RateLimitInfo) :
    List (String × RateLimitInfo) :=
  match ls with
  | [] => [(m, v)]
  | p :: rest => if p.1 == m then (m, v) :: rest else p :: setRL rest m v

/-- Modelled from the spec: the account-manager facade is not under src/.
An account has an active rate limit for a model when the entry is flagged
and its reset time is still in the future (spec section 3 and the
health-route reading of modelRateLimits). -/
def hasActiveLimit (now : Nat) (m : String) (a : Account) : Bool :=
  match lookupRL a.modelRateLimits m with
  | none => false
  | some rl => rl.isRateLimited && now < rl.resetTime

/-- Modelled from the spec: the account-manager facade is not under src/.
Availability invariant of spec section 3: enabled, not invalid, and no
active rate limit for the model. -/
def isAvailableFor (now : Nat) (m : String) (a : Account) : Bool :=
  a.enabled && !a.isInvalid && !hasActiveLimit now m a

/-- Modelled from the spec: the account-manager facade is not under src/.
getAvailableAccounts(model). -/
def getAvailableAccounts (now : Nat) (m : String) (pool : List Account) : List Account :=
  pool.filter (isAvailableFor now m)

/-- Modelled from the spec: the account-manager facade is not under src/.
isAllRateLimited(model): there are enabled non-invalid accounts and every
one of them has an active limit for the model. -/
def isAllRateLimited (now : Nat) (m : String) (pool : List Account) : Bool :=
  let considered := pool.filter (fun a => a.enabled && !a.isInvalid)
  !considered.isEmpty && considered.all (hasActiveLimit now m)

/-- Modelled from the spec: the account-manager facade is not under src/.
resetAllRateLimits(): the optimistic reset drops every transient rate-limit
entry. -/
def resetAllRateLimits (pool : List Account) : List Account :=
  pool.map (fun a => { a with modelRateLimits := [] })

/-- Modelled from the spec: the account-manager facade is not under src/.
markInvalid(email, reason): sticky invalidation with the reason recorded. -/
def markInvalid (pool : List Account) (email reason : String) : List Account :=
  pool.map (fun a =>
    if a.email == email then { a with isInvalid := true, invalidReason := some reason } else a)

/-- Modelled from the spec: the account-manager facade is not under src/.
markRateLimited(email, waitMs, model): sets resetTime = now + waitMs for
that (email, model) only. -/
def markRateLimited (now : Nat) (pool : List Account) (email : String) (waitMs : Nat)
    (m : String) : List Account :=
  pool.map (fun a =>
    if a.email == email then
      { a with modelRateLimits :=
          setRL a.modelRateLimits m { isRateLimited := true, resetTime := now + waitMs } }
    else a)

/-- Trace action of the Messages route preamble. -/
inductive PAct where
  | resetAll
deriving Repr, DecidableEq

/-- The optimistic-reset preamble of the Messages route
(createAnthropicRouter, before the executor is invoked): when every account
looks rate-limited for the resolved model, reset the transient state once
so the executor re-checks reality. -/
def anthropicPreamble (now : Nat) (modelId : String) (pool : List Account) :
    List PAct × List Account :=
  if isAllRateLimited now modelId pool then ([PAct.resetAll], resetAllRateLimits pool)
  else ([], pool)

/-- Trace action of one quota-refresh sweep. -/
inductive QAct where
  | refreshed (email : String)
  | refreshFailed (email : String)
  | stagger
deriving Repr, DecidableEq

/-- The per-account body of QuotaManager.refreshAll
(src/account-manager/quota/quota-manager.js lines 79-89): each enabled
non-invalid account is refreshed inside its own try/catch — ok names the
accounts whose refreshAccount succeeds — followed by the stagger sleep; a
failure is logged and the sweep continues. -/
def refreshSweep (ok : String → Bool) : List Account → List QAct
  | [] => []
  | a :: rest =>
    (if ok a.email then [QAct.refreshed a.email, QAct.stagger]
     else [QAct.refreshFailed a.email]) ++ refreshSweep ok rest

/-- QuotaManager.refreshAll (src/account-manager/quota/quota-manager.js
lines 70-93): returns immediately when a sweep is already in flight,
otherwise sweeps the enabled non-invalid accounts in pool order and clears
the flag.  Result: the sweep trace and the final isRefreshing flag. -/
def refreshAll (isRefreshing : Bool) (ok : String → Bool) (accounts : List Account) :
    List QAct × Bool :=
  if isRefreshing then ([], isRefreshing)
  else (refreshSweep ok (accounts.filter (fun a => a.enabled && !a.isInvalid)), false)

/-- Emails attempted during a sweep, in order. -/
def refreshAttempted (l : List QAct) : List String :=
  l.filterMap (fun q =>
    match q with
    | .refreshed e => some e
    | .refreshFailed e => some e
    | .stagger => none)

/-- Counts the upstream requests recorded in an attempt trace. -/
def isReqAct : AAct → Bool
  | .fetch _ => true
  | .refetch => true
  | _ => false

/-- Number of upstream requests in an attempt trace. -/
def countReq (l : List AAct) : Nat := (l.filter isReqAct).length

/-- Number of synthetic empty-response fallback sequences in an attempt
trace. -/
def countFallbackSeq (l : List AAct) : Nat := l.count AAct.emitFallbackSeq

/-- Number of strategy selections in an outer-loop trace. -/
def countSelect (l : List Act) : Nat := l.count Act.selectAccount

/-- Configuration instance with the spec-fixed constants, two endpoints,
and two empty-response retries, used by the concrete scenarios. -/
def testCfg : Cfg where
  numEndpoints := 2
  maxCapacityRetries := MAX_CAPACITY_RETRIES
  capacityBackoffTiers := CAPACITY_BACKOFF_TIERS_MS
  capacityRetryDelay := CAPACITY_RETRY_DELAY_MS
  maxEmptyRetries := 2
  failAttempt := 0

/-- A 503 whose body carries the capacity marker and no reset time. -/
def capResp503 : UpResp where
  status := 503
  retryAfter := none
  body := "model_capacity_exhausted"
  hasContent := false

/-- A 429 whose body carries the capacity marker and no reset time. -/
def capResp429 : UpResp where
  status := 429
  retryAfter := none
  body := "model_capacity_exhausted"
  hasContent := false

/-- A 429 quota response with no reset information. -/
def quotaResp429 : UpResp where
  status := 429
  retryAfter := none
  body := "Resource has been exhausted (e.g. check quota)."
  hasContent := false

/-- A 2xx response whose stream yields content events. -/
def okResp : UpResp where
  status := 200
  retryAfter := none
  body := ""
  hasContent := true

/-- A 2xx response whose stream yields no content events. -/
def okEmptyResp : UpResp where
  status := 200
  retryAfter := none
  body := ""
  hasContent := false

/-- A 401 whose body carries the permanent-auth marker. -/
def permAuthResp : UpResp where
  status := 401
  retryAfter := none
  body := "invalid_grant: Token has been expired or revoked"
  hasContent := false

/-- A fixed ISO timestamp rendering for the concrete scenarios. -/
def isoFix : Nat → String := fun _ => "2025-01-01T00:00:00.000Z"

/-- An account currently rate-limited for gemini-2.5-pro. -/
def rlAccount : Account where
  email := "a@example.com"
  enabled := true
  isInvalid := false
  invalidReason := none
  modelRateLimits := [("gemini-2.5-pro", { isRateLimited := true, resetTime := 1000 })]

/-! Helper lemmas: one-step unfoldings of the attempt machines. -/

theorem streamRun_ep_done (cfg : Cfg) (idx cap : Nat) (le : Option (ThrownKind × String))
    (r : UpResp) (rest : List UpResp) (acts : List AAct) (out : LoopOutcome)
    (h : epIter cfg idx cap le r = .done acts out) :
    streamAttemptRun cfg (.endpointLoop idx cap le) (r :: rest) = (acts, out) := by
  simp only [streamAttemptRun, h]

theorem streamRun_ep_cont (cfg : Cfg) (idx cap : Nat) (le : Option (ThrownKind × String))
    (r : UpResp) (rest : List UpResp) (pre : List AAct) (ph2 : SPhase)
    (h : epIter cfg idx cap le r = .cont pre ph2) :
    streamAttemptRun cfg (.endpointLoop idx cap le) (r :: rest) =
      (pre ++ (streamAttemptRun cfg ph2 rest).1, (streamAttemptRun cfg ph2 rest).2) := by
  simp only [streamAttemptRun, h]

theorem streamRun_er_done (cfg : Cfg) (k : Nat) (cur : UpResp) (idx cap : Nat)
    (r2 : UpResp) (rest2 : List UpResp) (acts : List AAct) (out : LoopOutcome)
    (h : erIter cfg k cur idx cap r2 = .done acts out) :
    streamAttemptRun cfg (.emptyLoop k cur idx cap) (r2 :: rest2) = (acts, out) := by
  simp only [streamAttemptRun, h]

theorem streamRun_er_cont (cfg : Cfg) (k : Nat) (cur : UpResp) (idx cap : Nat)
    (r2 : UpResp) (rest2 : List UpResp) (pre : List AAct) (ph2 : SPhase)
    (h : erIter cfg k cur idx cap r2 = .cont pre ph2) :
    streamAttemptRun cfg (.emptyLoop k cur idx cap) (r2 :: rest2) =
      (pre ++ (streamAttemptRun cfg ph2 rest2).1, (streamAttemptRun cfg ph2 rest2).2) := by
  simp only [streamAttemptRun, h]

/-! Helper lemmas: classifier values on the response shapes the claims
quantify over. -/

theorem respOk_eq_false_of_status {r : UpResp} {s : Nat} (hs : r.status = s)
    (h1 : s < 200 ∨ 300 ≤ s) : respOk r = false := by
  rcases h1 with h | h <;> simp [respOk, hs] <;> omega

theorem classifyStreamError_capacity_503 (cfg : Cfg) (cap : Nat) (r : UpResp)
    (hs : r.status = 503) (hcap : cap < cfg.maxCapacityRetries) :
    classifyStreamError cfg cap r =
      .capacityRetry (jsOrNat (parseResetTime r.retryAfter r.body)
        (jsOrNat (cfg.capacityBackoffTiers.get? cap) cfg.capacityRetryDelay)) := by
  simp [classifyStreamError, hs, hcap]

theorem classifyStreamError_capacity_429 (cfg : Cfg) (cap : Nat) (r : UpResp)
    (hs : r.status = 429) (hcb : isModelCapacityExhausted r.body = true)
    (hcap : cap < cfg.maxCapacityRetries) :
    classifyStreamError cfg cap r =
      .capacityRetry (jsOrNat (parseResetTime r.retryAfter r.body)
        (jsOrNat (cfg.capacityBackoffTiers.get? cap) cfg.capacityRetryDelay)) := by
  simp [classifyStreamError, hs, hcb, hcap]

theorem classifyStreamError_exhausted_429 (cfg : Cfg) (cap : Nat) (r : UpResp)
    (hs : r.status = 429) (hcb : isModelCapacityExhausted r.body = true)
    (hge : cfg.maxCapacityRetries ≤ cap) :
    classifyStreamError cfg cap r =
      .rateLimitStop
        (calculateSmartBackoff r.body (parseResetTime r.retryAfter r.body) cfg.failAttempt)
        ("RATE_LIMITED: " ++ r.body) := by
  simp [classifyStreamError, hs, hcb, Nat.not_lt.mpr hge]

theorem classifyStreamError_exhausted_503 (cfg : Cfg) (cap : Nat) (r : UpResp)
    (hs : r.status = 503) (hge : cfg.maxCapacityRetries ≤ cap) :
    classifyStreamError cfg cap r =
      .advance true (.apiError 503, "API error " ++ toString (503 : Nat) ++ ": " ++ r.body) := by
  simp [classifyStreamError, hs, Nat.not_lt.mpr hge]

/-! Helper lemmas: one-step behaviour of the two endpoint loops on
capacity, rate-limit and server-error responses. -/

theorem streamCapacity503Retry (cfg : Cfg) (idx cap : Nat)
    (le : Option (ThrownKind × String)) (r : UpResp) (rest : List UpResp)
    (hidx : idx < cfg.numEndpoints) (hs : r.status = 503)
    (hcap : cap < cfg.maxCapacityRetries) :
    streamAttemptRun cfg (.endpointLoop idx cap le) (r :: rest) =
      (AAct.fetch idx :: AAct.capacitySleep
          (jsOrNat (parseResetTime r.retryAfter r.body)
            (jsOrNat (cfg.capacityBackoffTiers.get? cap) cfg.capacityRetryDelay)) ::
        (streamAttemptRun cfg (.endpointLoop idx (cap + 1) le) rest).1,
       (streamAttemptRun cfg (.endpointLoop idx (cap + 1) le) rest).2) := by
  have hok : respOk r = false := respOk_eq_false_of_status hs (Or.inr (by omega))
  have hep : epIter cfg idx cap le r =
      .cont [AAct.fetch idx, AAct.capacitySleep
        (jsOrNat (parseResetTime r.retryAfter r.body)
          (jsOrNat (cfg.capacityBackoffTiers.get? cap) cfg.capacityRetryDelay))]
        (.endpointLoop idx (cap + 1) le) := by
    simp [epIter, Nat.not_le.mpr hidx, hok, classifyStreamError_capacity_503 cfg cap r hs hcap]
  simpa using streamRun_ep_cont cfg idx cap le r rest _ _ hep

theorem streamCapacity429Retry (cfg : Cfg) (idx cap : Nat)
    (le : Option (ThrownKind × String)) (r : UpResp) (rest : List UpResp)
    (hidx : idx < cfg.numEndpoints) (hs : r.status = 429)
    (hcb : isModelCapacityExhausted r.body = true)
    (hcap : cap < cfg.maxCapacityRetries) :
    streamAttemptRun cfg (.endpointLoop idx cap le) (r :: rest) =
      (AAct.fetch idx :: AAct.capacitySleep
          (jsOrNat (parseResetTime r.retryAfter r.body)
            (jsOrNat (cfg.capacityBackoffTiers.get? cap) cfg.capacityRetryDelay)) ::
        (streamAttemptRun cfg (.endpointLoop idx (cap + 1) le) rest).1,
       (streamAttemptRun cfg (.endpointLoop idx (cap + 1) le) rest).2) := by
  have hok : respOk r = false := respOk_eq_false_of_status hs (Or.inr (by omega))
  have hep : epIter cfg idx cap le r =
      .cont [AAct.fetch idx, AAct.capacitySleep
        (jsOrNat (parseResetTime r.retryAfter r.body)
          (jsOrNat (cfg.capacityBackoffTiers.get? cap) cfg.capacityRetryDelay))]
        (.endpointLoop idx (cap + 1) le) := by
    simp [epIter, Nat.not_le.mpr hidx, hok,
      classifyStreamError_capacity_429 cfg cap r hs hcb hcap]
  simpa using streamRun_ep_cont cfg idx cap le r rest _ _ hep

theorem streamExhausted429Marks (cfg : Cfg) (idx cap : Nat)
    (le : Option (ThrownKind × String)) (r : UpResp) (rest : List UpResp)
    (hidx : idx < cfg.numEndpoints) (hs : r.status = 429)
    (hcb : isModelCapacityExhausted r.body = true)
    (hge : cfg.maxCapacityRetries ≤ cap) :
    streamAttemptRun cfg (.endpointLoop idx cap le) (r :: rest) =
      ([AAct.fetch idx, AAct.markRateLimited (some
          (calculateSmartBackoff r.body (parseResetTime r.retryAfter r.body) cfg.failAttempt))],
       .thrown .rateLimited ("RATE_LIMITED: " ++ r.body)) := by
  have hok : respOk r = false := respOk_eq_false_of_status hs (Or.inr (by omega))
  have hep : epIter cfg idx cap le r =
      .done [AAct.fetch idx, AAct.markRateLimited (some
        (calculateSmartBackoff r.body (parseResetTime r.retryAfter r.body) cfg.failAttempt))]
        (.thrown .rateLimited ("RATE_LIMITED: " ++ r.body)) := by
    simp [epIter, Nat.not_le.mpr hidx, hok,
      classifyStreamError_exhausted_429 cfg cap r hs hcb hge]
  exact streamRun_ep_done cfg idx cap le r rest _ _ hep

theorem streamExhausted503Advance (cfg : Cfg) (idx cap : Nat)
    (le : Option (ThrownKind × String)) (r : UpResp) (rest : List UpResp)
    (hidx : idx < cfg.numEndpoints) (hs : r.status = 503)
    (hge : cfg.maxCapacityRetries ≤ cap) :
    streamAttemptRun cfg (.endpointLoop idx cap le) (r :: rest) =
      (AAct.fetch idx :: AAct.sleepMs 1000 ::
        (streamAttemptRun cfg (.endpointLoop (idx + 1) cap
          (some (.apiError 503, "API error " ++ toString (503 : Nat) ++ ": " ++ r.body))) rest).1,
       (streamAttemptRun cfg (.endpointLoop (idx + 1) cap
          (some (.apiError 503, "API error " ++ toString (503 : Nat) ++ ": " ++ r.body))) rest).2) := by
  have hok : respOk r = false := respOk_eq_false_of_status hs (Or.inr (by omega))
  have hep : epIter cfg idx cap le r =
      .cont [AAct.fetch idx, AAct.sleepMs 1000]
        (.endpointLoop (idx + 1) cap
          (some (.apiError 503, "API error " ++ toString (503 : Nat) ++ ": " ++ r.body))) := by
    simp [epIter, Nat.not_le.mpr hidx, hok,
      classifyStreamError_exhausted_503 cfg cap r hs hge]
  simpa using streamRun_ep_cont cfg idx cap le r rest _ _ hep

theorem messageCapacity429Retry (cfg : Cfg) (idx cap : Nat)
    (le : Option (ThrownKind × String)) (r : UpResp) (rest : List UpResp)
    (hidx : idx < cfg.numEndpoints) (hs : r.status = 429)
    (hcb : isModelCapacityExhausted r.body = true)
    (hcap : cap < cfg.maxCapacityRetries) :
    messageAttemptRun cfg idx cap le (r :: rest) =
      (AAct.fetch idx :: AAct.capacitySleep
          (jsOrNat (parseResetTime r.retryAfter r.body)
            (jsOrNat (cfg.capacityBackoffTiers.get? cap) cfg.capacityRetryDelay)) ::
        (messageAttemptRun cfg idx (cap + 1) le rest).1,
       (messageAttemptRun cfg idx (cap + 1) le rest).2) := by
  have hok : respOk r = false := respOk_eq_false_of_status hs (Or.inr (by omega))
  simp [messageAttemptRun, Nat.not_le.mpr hidx, hok, hs, hcb, hcap]

theorem messageExhausted429Marks (cfg : Cfg) (idx cap : Nat)
    (le : Option (ThrownKind × String)) (r : UpResp) (rest : List UpResp)
    (hidx : idx < cfg.numEndpoints) (hs : r.status = 429)
    (hge : cfg.maxCapacityRetries ≤ cap) :
    messageAttemptRun cfg idx cap le (r :: rest) =
      ([AAct.fetch idx, AAct.markRateLimited (some
          (calculateSmartBackoff r.body (parseResetTime r.retryAfter r.body) cfg.failAttempt))],
       .thrown .rateLimited ("RATE_LIMITED: " ++ r.body)) := by
  have hok : respOk r = false := respOk_eq_false_of_status hs (Or.inr (by omega))
  simp [messageAttemptRun, Nat.not_le.mpr hidx, hok, hs, Nat.not_lt.mpr hge]

theorem message503Advance (cfg : Cfg) (idx cap : Nat)
    (le : Option (ThrownKind × String)) (r : UpResp) (rest : List UpResp)
    (hidx : idx < cfg.numEndpoints) (hs : r.status = 503) :
    messageAttemptRun cfg idx cap le (r :: rest) =
      (AAct.fetch idx :: AAct.sleepMs 1000 ::
        (messageAttemptRun cfg (idx + 1) cap le rest).1,
       (messageAttemptRun cfg (idx + 1) cap le rest).2) := by
  have hok : respOk r = false := respOk_eq_false_of_status hs (Or.inr (by omega))
  simp [messageAttemptRun, Nat.not_le.mpr hidx, hok, hs]

/-- C1 counterexample: the claim asserts that a capacity-classified
response (here a 503 whose body carries the capacity marker) is retried on
the same endpoint in both modes; the non-streaming executor instead sleeps
1 s and advances from endpoint 0 to endpoint 1, issuing no in-place
capacity retry. -/
theorem c1_counterexample :
    capResp503.status = 503 ∧ isModelCapacityExhausted capResp503.body = true ∧
    messageAttemptRun testCfg 0 0 none [capResp503, capResp503] =
      ([.fetch 0, .sleepMs 1000, .fetch 1, .sleepMs 1000], .fellThrough) := by
  decide

/-- C1 (amended): the streaming executor retries capacity-classified
responses (any 503, or a 429/503 whose body carries the capacity marker) on
the same endpoint while capacityRetryCount is below MAX_CAPACITY_RETRIES,
sleeping the server reset when present, else CAPACITY_BACKOFF_TIERS_MS of
the count, else CAPACITY_RETRY_DELAY_MS; the non-streaming executor does
the same only for a 429 with the capacity marker, while a 503 sleeps 1 s
and advances the endpoint; with MAX_CAPACITY_RETRIES = 3, tiers
1 s / 5 s / 15 s and no server reset, three capacity responses produce the
sleeps 1 s, 5 s, 15 s at the same endpoint in both capacity-retried
shapes. -/
theorem c1_capacity_backoff (cfg : Cfg) (idx cap : Nat)
    (le : Option (ThrownKind × String)) (r : UpResp) (rest : List UpResp) :
    (streamAttemptRun testCfg (.endpointLoop 0 0 none)
        [capResp503, capResp503, capResp503, okResp] =
      ([.fetch 0, .capacitySleep 1000, .fetch 0, .capacitySleep 5000, .fetch 0,
        .capacitySleep 15000, .fetch 0, .clearRateLimitState, .notifySuccess], .success))
  ∧ (messageAttemptRun testCfg 0 0 none [capResp429, capResp429, capResp429, okResp] =
      ([.fetch 0, .capacitySleep 1000, .fetch 0, .capacitySleep 5000, .fetch 0,
        .capacitySleep 15000, .fetch 0, .clearRateLimitState, .notifySuccess], .success))
  ∧ (idx < cfg.numEndpoints → r.status = 503 → cap < cfg.maxCapacityRetries →
      streamAttemptRun cfg (.endpointLoop idx cap le) (r :: rest) =
        (AAct.fetch idx :: AAct.capacitySleep
            (jsOrNat (parseResetTime r.retryAfter r.body)
              (jsOrNat (cfg.capacityBackoffTiers.get? cap) cfg.capacityRetryDelay)) ::
          (streamAttemptRun cfg (.endpointLoop idx (cap + 1) le) rest).1,
         (streamAttemptRun cfg (.endpointLoop idx (cap + 1) le) rest).2))
  ∧ (idx < cfg.numEndpoints → r.status = 429 → isModelCapacityExhausted r.body = true →
      cap < cfg.maxCapacityRetries →
      streamAttemptRun cfg (.endpointLoop idx cap le) (r :: rest) =
        (AAct.fetch idx :: AAct.capacitySleep
            (jsOrNat (parseResetTime r.retryAfter r.body)
              (jsOrNat (cfg.capacityBackoffTiers.get? cap) cfg.capacityRetryDelay)) ::
          (streamAttemptRun cfg (.endpointLoop idx (cap + 1) le) rest).1,
         (streamAttemptRun cfg (.endpointLoop idx (cap + 1) le) rest).2))
  ∧ (idx < cfg.numEndpoints → r.status = 429 → isModelCapacityExhausted r.body = true →
      cap < cfg.maxCapacityRetries →
      messageAttemptRun cfg idx cap le (r :: rest) =
        (AAct.fetch idx :: AAct.capacitySleep
            (jsOrNat (parseResetTime r.retryAfter r.body)
              (jsOrNat (cfg.capacityBackoffTiers.get? cap) cfg.capacityRetryDelay)) ::
          (messageAttemptRun cfg idx (cap + 1) le rest).1,
         (messageAttemptRun cfg idx (cap + 1) le rest).2))
  ∧ (idx < cfg.numEndpoints → r.status = 503 →
      messageAttemptRun cfg idx cap le (r :: rest) =
        (AAct.fetch idx :: AAct.sleepMs 1000 ::
          (messageAttemptRun cfg (idx + 1) cap le rest).1,
         (messageAttemptRun cfg (idx + 1) cap le rest).2)) := by
  refine ⟨by decide, by decide, ?_, ?_, ?_, ?_⟩
  · exact fun hidx hs hcap => streamCapacity503Retry cfg idx cap le r rest hidx hs hcap
  · exact fun hidx hs hcb hcap => streamCapacity429Retry cfg idx cap le r rest hidx hs hcb hcap
  · exact fun hidx hs hcb hcap => messageCapacity429Retry cfg idx cap le r rest hidx hs hcb hcap
  · exact fun hidx hs => message503Advance cfg idx cap le r rest hidx hs

/-- C1 witness: the amended claim instantiated on one streaming 503
capacity response at endpoint 0 with no retries used. -/
theorem c1_capacity_backoff_witness :
    streamAttemptRun testCfg (.endpointLoop 0 0 none) [capResp503] =
      (AAct.fetch 0 :: AAct.capacitySleep
          (jsOrNat (parseResetTime capResp503.retryAfter capResp503.body)
            (jsOrNat (testCfg.capacityBackoffTiers.get? 0) testCfg.capacityRetryDelay)) ::
        (streamAttemptRun testCfg (.endpointLoop 0 1 none) []).1,
       (streamAttemptRun testCfg (.endpointLoop 0 1 none) []).2) :=
  (c1_capacity_backoff testCfg 0 0 none capResp503 []).2.2.1
    (by decide) (by decide) (by decide)

/-- C2 counterexample: the claim allows markRateLimited after exhausted
capacity retries only for a 429 with a quota reason; a 429 whose body is
the capacity marker (reason MODEL_CAPACITY_EXHAUSTED, not quota) is
nevertheless marked rate-limited by the streaming executor after the third
in-place retry. -/
theorem c2_counterexample :
    parseRateLimitReason capResp429.body = .MODEL_CAPACITY_EXHAUSTED ∧
    streamAttemptRun testCfg (.endpointLoop 0 0 none)
        [capResp429, capResp429, capResp429, capResp429] =
      ([.fetch 0, .capacitySleep 1000, .fetch 0, .capacitySleep 5000, .fetch 0,
        .capacitySleep 15000, .fetch 0, .markRateLimited (some 15000)],
       .thrown .rateLimited "RATE_LIMITED: model_capacity_exhausted") := by
  decide

/-- C2 (amended): once the in-place capacity retries are exhausted, a 503
is not marked rate-limited — the executor only sleeps 1 s and advances the
endpoint — while a 429 is always marked with the computed smart backoff
(whose value depends on the parsed reason) and thrown as RATE_LIMITED to
switch accounts, regardless of whether the reason is quota; the
non-streaming executor behaves the same on its exhausted 429 path. -/
theorem c2_exhausted_capacity (cfg : Cfg) (idx cap : Nat)
    (le : Option (ThrownKind × String)) (r : UpResp) (rest : List UpResp) :
    (idx < cfg.numEndpoints → r.status = 503 → cfg.maxCapacityRetries ≤ cap →
      streamAttemptRun cfg (.endpointLoop idx cap le) (r :: rest) =
        (AAct.fetch idx :: AAct.sleepMs 1000 ::
          (streamAttemptRun cfg (.endpointLoop (idx + 1) cap
            (some (.apiError 503,
              "API error " ++ toString (503 : Nat) ++ ": " ++ r.body))) rest).1,
         (streamAttemptRun cfg (.endpointLoop (idx + 1) cap
            (some (.apiError 503,
              "API error " ++ toString (503 : Nat) ++ ": " ++ r.body))) rest).2))
  ∧ (idx < cfg.numEndpoints → r.status = 429 → isModelCapacityExhausted r.body = true →
      cfg.maxCapacityRetries ≤ cap →
      streamAttemptRun cfg (.endpointLoop idx cap le) (r :: rest) =
        ([AAct.fetch idx, AAct.markRateLimited (some (calculateSmartBackoff r.body
            (parseResetTime r.retryAfter r.body) cfg.failAttempt))],
         .thrown .rateLimited ("RATE_LIMITED: " ++ r.body)))
  ∧ (idx < cfg.numEndpoints → r.status = 429 → cfg.maxCapacityRetries ≤ cap →
      messageAttemptRun cfg idx cap le (r :: rest) =
        ([AAct.fetch idx, AAct.markRateLimited (some (calculateSmartBackoff r.body
            (parseResetTime r.retryAfter r.body) cfg.failAttempt))],
         .thrown .rateLimited ("RATE_LIMITED: " ++ r.body))) := by
  refine ⟨?_, ?_, ?_⟩
  · exact fun hidx hs hge => streamExhausted503Advance cfg idx cap le r rest hidx hs hge
  · exact fun hidx hs hcb hge => streamExhausted429Marks cfg idx cap le r rest hidx hs hcb hge
  · exact fun hidx hs hge => messageExhausted429Marks cfg idx cap le r rest hidx hs hge

/-- C2 witness: the amended claim instantiated on a capacity-marked 429 at
exhausted retry count in the streaming executor. -/
theorem c2_exhausted_capacity_witness :
    streamAttemptRun testCfg (.endpointLoop 0 3 none) [capResp429] =
      ([AAct.fetch 0, AAct.markRateLimited (some (calculateSmartBackoff capResp429.body
          (parseResetTime capResp429.retryAfter capResp429.body) testCfg.failAttempt))],
       .thrown .rateLimited ("RATE_LIMITED: " ++ capResp429.body)) :=
  (c2_exhausted_capacity testCfg 0 3 none capResp429 []).2.1
    (by decide) (by decide) (by decide) (by decide)

/-- C3: when no account is available, all accounts are rate-limited for the
model, and the minimum wait is at most MAX_WAIT_BEFORE_ERROR_MS, both
executors sleep exactly minWaitMs + 500 ms, clear expired limits again, and
re-enter the loop at the same attempt counter (the wait consumes no
attempt); with a 30 s reset and threshold 120000 the sleep is 30500 ms. -/
theorem c3_wait_branch (cfg : Cfg) (fb : Bool) (model : String) (iso : Nat → String)
    (maxA attempt minWait : Nat) (rest : List SelInput)
    (hatt : attempt < maxA) (hw : minWait ≤ MAX_WAIT_BEFORE_ERROR_MS) :
    (sendMessageStreamLoop cfg fb model iso maxA attempt (.noAvail true minWait :: rest) =
      (Act.clearExpired :: Act.sleepMs (minWait + 500) :: Act.clearExpired ::
        (sendMessageStreamLoop cfg fb model iso maxA attempt rest).1,
       (sendMessageStreamLoop cfg fb model iso maxA attempt rest).2))
  ∧ (sendMessageLoop cfg fb model iso maxA attempt (.noAvail true minWait :: rest) =
      (Act.clearExpired :: Act.sleepMs (minWait + 500) :: Act.clearExpired ::
        (sendMessageLoop cfg fb model iso maxA attempt rest).1,
       (sendMessageLoop cfg fb model iso maxA attempt rest).2)) := by
  constructor
  · simp only [sendMessageStreamLoop]
    rw [if_neg (Nat.not_le.mpr hatt), if_neg (Nat.not_lt.mpr hw)]
  · simp only [sendMessageLoop]
    rw [if_neg (Nat.not_le.mpr hatt), if_neg (Nat.not_lt.mpr hw)]

/-- C3 witness: one streaming iteration with a 30 s minimum wait sleeps
30500 ms, clears expired limits, and leaves the attempt counter at 0 (the
remaining oracle is consulted at the same attempt). -/
theorem c3_wait_branch_witness :
    sendMessageStreamLoop testCfg true "gemini-2.5-pro" isoFix 1 0 [.noAvail true 30000] =
      ([.clearExpired, .sleepMs 30500, .clearExpired], .outOfInputs) := by
  have h := (c3_wait_branch testCfg true "gemini-2.5-pro" isoFix 1 0 30000 []
    (by decide) (by decide)).1
  rw [h]
  simp [sendMessageStreamLoop]

/-- C4: when all accounts are rate-limited and the minimum wait strictly
exceeds MAX_WAIT_BEFORE_ERROR_MS, both executors recurse into the fallback
model when fallback is enabled and getFallbackModel resolves, and otherwise
throw exactly RESOURCE_EXHAUSTED: Rate limited on the model, quota reset
after the formatted duration, next available at the ISO timestamp; the
recursion chains lite to flash to pro until getFallbackModel is absent. -/
theorem c4_exhausted_fallback (cfg : Cfg) (fb : Bool) (model fm : String)
    (iso : Nat → String) (maxA attempt minWait w : Nat) (rest : List SelInput) :
    (attempt < maxA → MAX_WAIT_BEFORE_ERROR_MS < minWait → fb = true →
      getFallbackModel model = some fm →
      sendMessageStreamLoop cfg fb model iso maxA attempt (.noAvail true minWait :: rest) =
        ([Act.clearExpired], .fallbackTo fm))
  ∧ (attempt < maxA → MAX_WAIT_BEFORE_ERROR_MS < minWait →
      (fb = false ∨ getFallbackModel model = none) →
      sendMessageStreamLoop cfg fb model iso maxA attempt (.noAvail true minWait :: rest) =
        ([Act.clearExpired], .thrown ("RESOURCE_EXHAUSTED: Rate limited on " ++ model ++
          ". Quota will reset after " ++ formatDuration minWait ++
          ". Next available: " ++ iso minWait)))
  ∧ (attempt < maxA → MAX_WAIT_BEFORE_ERROR_MS < minWait → fb = true →
      getFallbackModel model = some fm →
      sendMessageLoop cfg fb model iso maxA attempt (.noAvail true minWait :: rest) =
        ([Act.clearExpired], .fallbackTo fm))
  ∧ (attempt < maxA → MAX_WAIT_BEFORE_ERROR_MS < minWait →
      (fb = false ∨ getFallbackModel model = none) →
      sendMessageLoop cfg fb model iso maxA attempt (.noAvail true minWait :: rest) =
        ([Act.clearExpired], .thrown ("RESOURCE_EXHAUSTED: Rate limited on " ++ model ++
          ". Quota will reset after " ++ formatDuration minWait ++
          ". Next available: " ++ iso minWait)))
  ∧ (MAX_WAIT_BEFORE_ERROR_MS < w →
      exhaustedResolve true (fun _ => w) iso 3 "gemini-2.5-flash-lite" =
        .thrown (resourceExhaustedMsg "gemini-2.5-pro" w iso)) := by
  have h1 : getFallbackModel "gemini-2.5-flash-lite" = some "gemini-2.5-flash" := rfl
  have h2 : getFallbackModel "gemini-2.5-flash" = some "gemini-2.5-pro" := rfl
  have h3 : getFallbackModel "gemini-2.5-pro" = none := rfl
  refine ⟨?_, ?_, ?_, ?_, ?_⟩
  · intro hatt hw hfb hres
    subst hfb
    simp only [sendMessageStreamLoop]
    rw [if_neg (Nat.not_le.mpr hatt), if_pos hw]
    simp [hres]
  · intro hatt hw hcase
    simp only [sendMessageStreamLoop]
    rw [if_neg (Nat.not_le.mpr hatt), if_pos hw]
    rcases hcase with hfb | hres
    · subst hfb
      simp [resourceExhaustedMsg]
    · simp [hres, resourceExhaustedMsg]
  · intro hatt hw hfb hres
    subst hfb
    simp only [sendMessageLoop]
    rw [if_neg (Nat.not_le.mpr hatt), if_pos hw]
    simp [hres]
  · intro hatt hw hcase
    simp only [sendMessageLoop]
    rw [if_neg (Nat.not_le.mpr hatt), if_pos hw]
    rcases hcase with hfb | hres
    · subst hfb
      simp [resourceExhaustedMsg]
    · simp [hres, resourceExhaustedMsg]
  · intro hw
    simp [exhaustedResolve, h1, h2, h3, hw]

/-- C4 witness: with every account rate-limited for gemini-2.5-flash for
150 s (above the 120 s threshold) and fallback enabled, the streaming
executor recurses into gemini-2.5-pro. -/
theorem c4_exhausted_fallback_witness :
    sendMessageStreamLoop testCfg true "gemini-2.5-flash" isoFix 1 0
        [.noAvail true 150000] =
      ([Act.clearExpired], .fallbackTo "gemini-2.5-pro") :=
  (c4_exhausted_fallback testCfg true "gemini-2.5-flash" "gemini-2.5-pro" isoFix 1 0
    150000 0 []).1 (by decide) (by decide) rfl rfl

theorem count_att_map_select (l : List AAct) :
    (l.map Act.att).count Act.selectAccount = 0 := by
  induction l with
  | nil => rfl
  | cons a t ih => simp [List.count_cons, ih]

theorem countSelect_streamLoop_le (cfg : Cfg) (fb : Bool) (model : String)
    (iso : Nat → String) (maxA : Nat) :
    ∀ (inputs : List SelInput) (attempt : Nat),
      countSelect (sendMessageStreamLoop cfg fb model iso maxA attempt inputs).1 ≤
        maxA - attempt := by
  intro inputs
  induction inputs with
  | nil =>
    intro attempt
    simp only [sendMessageStreamLoop]
    split
    · split
      · cases hg : getFallbackModel model <;> simp [countSelect]
      · simp [countSelect]
    · simp [countSelect]
  | cons inp rest ih =>
    intro attempt
    by_cases hle : maxA ≤ attempt
    · simp only [sendMessageStreamLoop]
      rw [if_pos hle]
      split
      · cases hg : getFallbackModel model <;> simp [countSelect]
      · simp [countSelect]
    · have hlt : attempt < maxA := Nat.lt_of_not_le hle
      cases inp with
      | noAvail allRL minWait =>
        cases allRL
        · simp only [sendMessageStreamLoop]
          rw [if_neg hle]
          simp [countSelect]
        · by_cases hgt : MAX_WAIT_BEFORE_ERROR_MS < minWait
          · simp only [sendMessageStreamLoop]
            rw [if_neg hle]
            rw [if_pos hgt]
            split
            · cases hg : getFallbackModel model <;> simp [hg, countSelect]
            · simp [countSelect]
          · simp only [sendMessageStreamLoop]
            rw [if_neg hle]
            rw [if_neg hgt]
            simpa [countSelect, List.count_cons] using ih attempt
      | selNull w =>
        simp only [sendMessageStreamLoop]
        rw [if_neg hle]
        have h2 := ih (attempt + 1)
        simp only [countSelect, List.count_cons] at h2 ⊢
        simp
        omega
      | selAcc cf resps =>
        simp only [sendMessageStreamLoop]
        rw [if_neg hle]
        have h2 := ih (attempt + 1)
        have hm := count_att_map_select (streamAttemptRun cfg (.endpointLoop 0 0 none) resps).1
        rcases ho : (streamAttemptRun cfg (SPhase.endpointLoop 0 0 none) resps).2 with
          _ | ⟨k, msg⟩ | _ | _
        · simp only [ho]
          simp [countSelect, List.count_cons, hm]
          omega
        · simp only [ho]
          by_cases h1 : isRateLimitErrorK k = true
          · rw [if_pos h1]
            simp only [countSelect, List.count_cons, List.count_append] at h2 ⊢
            simp [hm]
            omega
          · rw [if_neg h1]
            by_cases hA : isAuthErrorK k = true
            · rw [if_pos hA]
              simp only [countSelect, List.count_cons, List.count_append] at h2 ⊢
              simp [hm]
              omega
            · rw [if_neg hA]
              by_cases hS : isServerErrorK k = true
              · rw [if_pos hS]
                by_cases hcf : MAX_CONSECUTIVE_FAILURES ≤ cf
                · rw [if_pos hcf]
                  simp only [countSelect, List.count_cons, List.count_append] at h2 ⊢
                  simp [hm]
                  omega
                · rw [if_neg hcf]
                  simp only [countSelect, List.count_cons, List.count_append] at h2 ⊢
                  simp [hm]
                  omega
              · rw [if_neg hS]
                simp [countSelect, List.count_cons, hm]
                omega
        · simp only [ho]
          simp only [countSelect, List.count_cons, List.count_append] at h2 ⊢
          simp [hm]
          omega
        · simp only [ho]
          simp [countSelect, List.count_cons, hm]
          omega

theorem countSelect_messageLoop_le (cfg : Cfg) (fb : Bool) (model : String)
    (iso : Nat → String) (maxA : Nat) :
    ∀ (inputs : List SelInput) (attempt : Nat),
      countSelect (sendMessageLoop cfg fb model iso maxA attempt inputs).1 ≤
        maxA - attempt := by
  intro inputs
  induction inputs with
  | nil =>
    intro attempt
    simp only [sendMessageLoop]
    split
    · split
      · cases hg : getFallbackModel model <;> simp [countSelect]
      · simp [countSelect]
    · simp [countSelect]
  | cons inp rest ih =>
    intro attempt
    by_cases hle : maxA ≤ attempt
    · simp only [sendMessageLoop]
      rw [if_pos hle]
      split
      · cases hg : getFallbackModel model <;> simp [countSelect]
      · simp [countSelect]
    · have hlt : attempt < maxA := Nat.lt_of_not_le hle
      cases inp with
      | noAvail allRL minWait =>
        cases allRL
        · simp only [sendMessageLoop]
          rw [if_neg hle]
          simp [countSelect]
        · by_cases hgt : MAX_WAIT_BEFORE_ERROR_MS < minWait
          · simp only [sendMessageLoop]
            rw [if_neg hle]
            rw [if_pos hgt]
            split
            · cases hg : getFallbackModel model <;> simp [hg, countSelect]
            · simp [countSelect]
          · simp only [sendMessageLoop]
            rw [if_neg hle]
            rw [if_neg hgt]
            simpa [countSelect, List.count_cons] using ih attempt
      | selNull w =>
        simp only [sendMessageLoop]
        rw [if_neg hle]
        have h2 := ih (attempt + 1)
        simp only [countSelect, List.count_cons] at h2 ⊢
        simp
        omega
      | selAcc cf resps =>
        simp only [sendMessageLoop]
        rw [if_neg hle]
        have h2 := ih (attempt + 1)
        have hm := count_att_map_select (messageAttemptRun cfg 0 0 none resps).1
        rcases ho : (messageAttemptRun cfg 0 0 none resps).2 with
          _ | ⟨k, msg⟩ | _ | _
        · simp only [ho]
          simp [countSelect, List.count_cons, hm]
          omega
        · simp only [ho]
          by_cases h1 : isRateLimitErrorK k = true
          · rw [if_pos h1]
            simp only [countSelect, List.count_cons, List.count_append] at h2 ⊢
            simp [hm]
            omega
          · rw [if_neg h1]
            by_cases hA : isAuthErrorK k = true
            · rw [if_pos hA]
              simp only [countSelect, List.count_cons, List.count_append] at h2 ⊢
              simp [hm]
              omega
            · rw [if_neg hA]
              by_cases hS : isServerErrorK k = true
              · rw [if_pos hS]
                by_cases hcf : MAX_CONSECUTIVE_FAILURES ≤ cf
                · rw [if_pos hcf]
                  simp only [countSelect, List.count_cons, List.count_append] at h2 ⊢
                  simp [hm]
                  omega
                · rw [if_neg hcf]
                  simp only [countSelect, List.count_cons, List.count_append] at h2 ⊢
                  simp [hm]
                  omega
              · rw [if_neg hS]
                simp [countSelect, List.count_cons, hm]
                omega
        · simp only [ho]
          simp only [countSelect, List.count_cons, List.count_append] at h2 ⊢
          simp [hm]
          omega
        · simp only [ho]
          simp [countSelect, List.count_cons, hm]
          omega

/-- C6: for any oracle of selection inputs, both executors perform at most
max(MAX_RETRIES, accountCount + 1) strategy selections in one logical call,
whatever mixture of waits, failures and switches occurs before the call
returns, recurses into the fallback model, or throws Max retries
exceeded. -/
theorem c6_attempt_bound (cfg : Cfg) (fb : Bool) (model : String) (iso : Nat → String)
    (maxRetries accountCount : Nat) (inputs : List SelInput) :
    countSelect (sendMessageStreamLoop cfg fb model iso
        (max maxRetries (accountCount + 1)) 0 inputs).1 ≤ max maxRetries (accountCount + 1)
  ∧ countSelect (sendMessageLoop cfg fb model iso
        (max maxRetries (accountCount + 1)) 0 inputs).1 ≤ max maxRetries (accountCount + 1) := by
  constructor
  · simpa using countSelect_streamLoop_le cfg fb model iso
      (max maxRetries (accountCount + 1)) inputs 0
  · simpa using countSelect_messageLoop_le cfg fb model iso
      (max maxRetries (accountCount + 1)) inputs 0

theorem countReq_append (l1 l2 : List AAct) :
    countReq (l1 ++ l2) = countReq l1 + countReq l2 := by
  simp [countReq, List.filter_append]

theorem countFallbackSeq_append (l1 l2 : List AAct) :
    countFallbackSeq (l1 ++ l2) = countFallbackSeq l1 + countFallbackSeq l2 := by
  simp [countFallbackSeq]

theorem emptyLoop_spec (cfg : Cfg) (idx cap : Nat) :
    ∀ (rest : List UpResp) (k : Nat) (cur : UpResp),
      (∀ r ∈ rest, respOk r = true) →
      cfg.maxEmptyRetries ≤ k + rest.length →
      countReq (streamAttemptRun cfg (.emptyLoop k cur idx cap) rest).1 ≤
          cfg.maxEmptyRetries - k
      ∧ countFallbackSeq (streamAttemptRun cfg (.emptyLoop k cur idx cap) rest).1 ≤ 1
      ∧ (countFallbackSeq (streamAttemptRun cfg (.emptyLoop k cur idx cap) rest).1 = 1 ↔
          (cur.hasContent = false ∧
            ∀ r ∈ rest.take (cfg.maxEmptyRetries - k), r.hasContent = false))
      ∧ (countFallbackSeq (streamAttemptRun cfg (.emptyLoop k cur idx cap) rest).1 = 1 →
          (streamAttemptRun cfg (.emptyLoop k cur idx cap) rest).2 = .success) := by
  intro rest
  induction rest with
  | nil =>
    intro k cur _ hlen
    have hk : cfg.maxEmptyRetries ≤ k := by simpa using hlen
    by_cases hc : cur.hasContent
    · simp [streamAttemptRun, hc, countReq, countFallbackSeq, isReqAct]
    · simp [streamAttemptRun, hc, hk, countReq, countFallbackSeq, isReqAct,
        Nat.sub_eq_zero_of_le hk]
  | cons r2 rs ih =>
    intro k cur hok hlen
    have hok2 : respOk r2 = true := hok r2 (by simp)
    have hoks : ∀ r ∈ rs, respOk r = true := fun r hr => hok r (by simp [hr])
    by_cases hc : cur.hasContent
    · have her : erIter cfg k cur idx cap r2 =
          .done [AAct.clearRateLimitState, AAct.notifySuccess] .success := by
        simp [erIter, hc]
      rw [streamRun_er_done cfg k cur idx cap r2 rs _ _ her]
      simp [countReq, countFallbackSeq, isReqAct, hc]
    · have hcf : cur.hasContent = false := by simpa using hc
      by_cases hk : cfg.maxEmptyRetries ≤ k
      · have her : erIter cfg k cur idx cap r2 = .done [AAct.emitFallbackSeq] .success := by
          simp [erIter, hc, hk]
        rw [streamRun_er_done cfg k cur idx cap r2 rs _ _ her]
        simp [countReq, countFallbackSeq, isReqAct, hcf, Nat.sub_eq_zero_of_le hk]
      · have her : erIter cfg k cur idx cap r2 =
            .cont [AAct.sleepMs (getExponentialBackoffMs 500 k), AAct.refetch]
              (.emptyLoop (k + 1) r2 idx cap) := by
          simp [erIter, hc, hk, classifyEmptyRetry, hok2]
        rw [streamRun_er_cont cfg k cur idx cap r2 rs _ _ her]
        have hlen2 : cfg.maxEmptyRetries ≤ (k + 1) + rs.length := by
          simp at hlen
          omega
        obtain ⟨ih1, ih2, ih3, ih4⟩ := ih (k + 1) r2 hoks hlen2
        have hnk : cfg.maxEmptyRetries - k = (cfg.maxEmptyRetries - (k + 1)) + 1 := by omega
        have hpreR : countReq [AAct.sleepMs (getExponentialBackoffMs 500 k), AAct.refetch] = 1 := by
          simp [countReq, isReqAct]
        have hpreF : countFallbackSeq
            [AAct.sleepMs (getExponentialBackoffMs 500 k), AAct.refetch] = 0 := by
          simp [countFallbackSeq]
        refine ⟨?_, ?_, ?_, ?_⟩
        · rw [countReq_append, hpreR]
          omega
        · rw [countFallbackSeq_append, hpreF]
          omega
        · rw [countFallbackSeq_append, hpreF, Nat.zero_add, hnk, List.take_succ_cons]
          constructor
          · intro h1
            obtain ⟨hr2, hrs⟩ := ih3.mp h1
            refine ⟨hcf, ?_⟩
            intro r hr
            rcases List.mem_cons.mp hr with hr' | hr'
            · rw [hr']
              exact hr2
            · exact hrs r hr'
          · rintro ⟨-, h2⟩
            apply ih3.mpr
            exact ⟨h2 r2 (List.mem_cons_self _ _),
              fun r hr => h2 r (List.mem_cons_of_mem _ hr)⟩
        · intro h1
          rw [countFallbackSeq_append, hpreF, Nat.zero_add] at h1
          exact ih4 h1

/-- C5: for a streaming call whose upstream responses are all 2xx, at most
maxEmptyRetries + 1 upstream requests are issued, the synthetic
empty-response fallback sequence is emitted at most once, it is emitted
exactly once if and only if the first stream and all maxEmptyRetries
refetched streams yield no content, and in that case the attempt returns
success rather than raising an error. -/
theorem c5_empty_response (cfg : Cfg) (r0 : UpResp) (rest : List UpResp)
    (hnum : 0 < cfg.numEndpoints) (h0 : respOk r0 = true)
    (hok : ∀ r ∈ rest, respOk r = true)
    (hlen : cfg.maxEmptyRetries ≤ rest.length) :
    countReq (streamAttemptRun cfg (.endpointLoop 0 0 none) (r0 :: rest)).1 ≤
        cfg.maxEmptyRetries + 1
  ∧ countFallbackSeq (streamAttemptRun cfg (.endpointLoop 0 0 none) (r0 :: rest)).1 ≤ 1
  ∧ (countFallbackSeq (streamAttemptRun cfg (.endpointLoop 0 0 none) (r0 :: rest)).1 = 1 ↔
      (r0.hasContent = false ∧
        ∀ r ∈ rest.take cfg.maxEmptyRetries, r.hasContent = false))
  ∧ (countFallbackSeq (streamAttemptRun cfg (.endpointLoop 0 0 none) (r0 :: rest)).1 = 1 →
      (streamAttemptRun cfg (.endpointLoop 0 0 none) (r0 :: rest)).2 = .success) := by
  have hep : epIter cfg 0 0 none r0 = .cont [AAct.fetch 0] (.emptyLoop 0 r0 0 0) := by
    simp [epIter, Nat.not_le.mpr hnum, h0]
  rw [streamRun_ep_cont cfg 0 0 none r0 rest _ _ hep]
  obtain ⟨h1, h2, h3, h4⟩ :=
    emptyLoop_spec cfg 0 0 rest 0 r0 hok (by simpa using hlen)
  simp only [Nat.sub_zero] at h1 h3
  have hpreR : countReq [AAct.fetch 0] = 1 := by simp [countReq, isReqAct]
  have hpreF : countFallbackSeq [AAct.fetch 0] = 0 := by simp [countFallbackSeq]
  refine ⟨?_, ?_, ?_, ?_⟩
  · rw [countReq_append, hpreR]
    omega
  · rw [countFallbackSeq_append, hpreF]
    omega
  · rw [countFallbackSeq_append, hpreF, Nat.zero_add]
    exact h3
  · intro hfb
    rw [countFallbackSeq_append, hpreF, Nat.zero_add] at hfb
    exact h4 hfb

/-- C5 witness: with maxEmptyRetries = 2 and three 2xx responses whose
streams are all empty, three upstream requests are issued, the synthetic
fallback is emitted exactly once, and the call succeeds. -/
theorem c5_empty_response_witness :
    countReq (streamAttemptRun testCfg (.endpointLoop 0 0 none)
        (okEmptyResp :: [okEmptyResp, okEmptyResp])).1 ≤ testCfg.maxEmptyRetries + 1
  ∧ countFallbackSeq (streamAttemptRun testCfg (.endpointLoop 0 0 none)
        (okEmptyResp :: [okEmptyResp, okEmptyResp])).1 ≤ 1
  ∧ (countFallbackSeq (streamAttemptRun testCfg (.endpointLoop 0 0 none)
        (okEmptyResp :: [okEmptyResp, okEmptyResp])).1 = 1 ↔
      (okEmptyResp.hasContent = false ∧
        ∀ r ∈ [okEmptyResp, okEmptyResp].take testCfg.maxEmptyRetries,
          r.hasContent = false))
  ∧ (countFallbackSeq (streamAttemptRun testCfg (.endpointLoop 0 0 none)
        (okEmptyResp :: [okEmptyResp, okEmptyResp])).1 = 1 →
      (streamAttemptRun testCfg (.endpointLoop 0 0 none)
        (okEmptyResp :: [okEmptyResp, okEmptyResp])).2 = .success) :=
  c5_empty_response testCfg okEmptyResp [okEmptyResp, okEmptyResp]
    (by decide) (by decide) (by decide) (by decide)

theorem streamAuthPermanentStop (cfg : Cfg) (idx cap : Nat)
    (le : Option (ThrownKind × String)) (r : UpResp) (rest : List UpResp)
    (hidx : idx < cfg.numEndpoints) (hs : r.status = 401)
    (hperm : isPermanentAuthFailure r.body = true) :
    streamAttemptRun cfg (.endpointLoop idx cap le) (r :: rest) =
      ([AAct.fetch idx, AAct.markInvalid "Token revoked - re-authentication required"],
       .thrown .authPermanent ("AUTH_INVALID_PERMANENT: " ++ r.body)) := by
  have hok : respOk r = false := respOk_eq_false_of_status hs (Or.inr (by omega))
  have hep : epIter cfg idx cap le r =
      .done [AAct.fetch idx, AAct.markInvalid "Token revoked - re-authentication required"]
        (.thrown .authPermanent ("AUTH_INVALID_PERMANENT: " ++ r.body)) := by
    simp [epIter, classifyStreamError, Nat.not_le.mpr hidx, hok, hs, hperm]
  exact streamRun_ep_done cfg idx cap le r rest _ _ hep

theorem messageAuthPermanentStop (cfg : Cfg) (idx cap : Nat)
    (le : Option (ThrownKind × String)) (r : UpResp) (rest : List UpResp)
    (hidx : idx < cfg.numEndpoints) (hs : r.status = 401)
    (hperm : isPermanentAuthFailure r.body = true) :
    messageAttemptRun cfg idx cap le (r :: rest) =
      ([AAct.fetch idx, AAct.markInvalid "Token revoked - re-authentication required"],
       .thrown .authPermanent ("AUTH_INVALID_PERMANENT: " ++ r.body)) := by
  have hok : respOk r = false := respOk_eq_false_of_status hs (Or.inr (by omega))
  simp [messageAttemptRun, Nat.not_le.mpr hidx, hok, hs, hperm]

theorem markInvalid_fields (pool : List Account) (email reason : String) (a : Account)
    (ha : a ∈ markInvalid pool email reason) (he : a.email = email) :
    a.isInvalid = true ∧ a.invalidReason = some reason := by
  rcases List.mem_map.mp ha with ⟨b, hb, hba⟩
  by_cases hbe : (b.email == email) = true
  · rw [← hba]
    simp [markInvalid, hbe]
  · rw [← hba] at he
    simp [markInvalid, hbe] at he
    exact absurd he (by simpa using hbe)

theorem markInvalid_excluded (now : Nat) (m : String) (pool : List Account)
    (email reason : String) (a : Account)
    (ha : a ∈ getAvailableAccounts now m (markInvalid pool email reason)) :
    ¬ a.email = email := by
  intro he
  have hmem := (List.mem_filter.mp ha).1
  have hav := (List.mem_filter.mp ha).2
  have hf := markInvalid_fields pool email reason a hmem he
  simp [isAvailableFor, hf.1] at hav

/-- C7: a 401 whose body carries the permanent-auth marker makes the
attempt call markInvalid with the recorded reason and fail with an error
beginning AUTH_INVALID_PERMANENT, in both executors; the outer loop
classifies that error as an auth error and continues with the next attempt;
and an account marked invalid records the reason and is excluded from
getAvailableAccounts for every model and time until the flag is cleared. -/
theorem c7_permanent_auth (cfg : Cfg) (idx cap attempt maxA cf : Nat)
    (le : Option (ThrownKind × String)) (fb : Bool) (model : String)
    (iso : Nat → String) (r : UpResp) (rest rs : List UpResp) (inputs : List SelInput) :
    (idx < cfg.numEndpoints → r.status = 401 → isPermanentAuthFailure r.body = true →
      streamAttemptRun cfg (.endpointLoop idx cap le) (r :: rest) =
        ([AAct.fetch idx, AAct.markInvalid "Token revoked - re-authentication required"],
         .thrown .authPermanent ("AUTH_INVALID_PERMANENT: " ++ r.body)))
  ∧ (idx < cfg.numEndpoints → r.status = 401 → isPermanentAuthFailure r.body = true →
      messageAttemptRun cfg idx cap le (r :: rest) =
        ([AAct.fetch idx, AAct.markInvalid "Token revoked - re-authentication required"],
         .thrown .authPermanent ("AUTH_INVALID_PERMANENT: " ++ r.body)))
  ∧ (attempt < maxA → 0 < cfg.numEndpoints → r.status = 401 →
      isPermanentAuthFailure r.body = true →
      sendMessageStreamLoop cfg fb model iso maxA attempt (.selAcc cf (r :: rs) :: inputs) =
        (Act.clearExpired :: Act.selectAccount :: Act.att (AAct.fetch 0) ::
          Act.att (AAct.markInvalid "Token revoked - re-authentication required") ::
          (sendMessageStreamLoop cfg fb model iso maxA (attempt + 1) inputs).1,
         (sendMessageStreamLoop cfg fb model iso maxA (attempt + 1) inputs).2))
  ∧ (∀ (now : Nat) (m : String) (pool : List Account) (email reason : String) (a : Account),
      a ∈ getAvailableAccounts now m (markInvalid pool email reason) → a.email ≠ email)
  ∧ (∀ (pool : List Account) (email reason : String) (a : Account),
      a ∈ markInvalid pool email reason → a.email = email →
      a.isInvalid = true ∧ a.invalidReason = some reason) := by
  refine ⟨?_, ?_, ?_, ?_, ?_⟩
  · exact fun hidx hs hperm => streamAuthPermanentStop cfg idx cap le r rest hidx hs hperm
  · exact fun hidx hs hperm => messageAuthPermanentStop cfg idx cap le r rest hidx hs hperm
  · intro hatt hnum hs hperm
    have hrun := streamAuthPermanentStop cfg 0 0 none r rs hnum hs hperm
    simp only [sendMessageStreamLoop]
    rw [if_neg (Nat.not_le.mpr hatt), hrun]
    simp [isRateLimitErrorK, isAuthErrorK]
  · exact fun now m pool email reason a ha =>
      markInvalid_excluded now m pool email reason a ha
  · exact fun pool email reason a ha he => markInvalid_fields pool email reason a ha he

/-- C7 witness: the streaming attempt on a concrete 401 with the
invalid-grant body marks the account invalid and throws
AUTH_INVALID_PERMANENT. -/
theorem c7_permanent_auth_witness :
    streamAttemptRun testCfg (.endpointLoop 0 0 none) [permAuthResp] =
      ([AAct.fetch 0, AAct.markInvalid "Token revoked - re-authentication required"],
       .thrown .authPermanent ("AUTH_INVALID_PERMANENT: " ++ permAuthResp.body)) :=
  (c7_permanent_auth testCfg 0 0 0 1 0 none true "m" isoFix permAuthResp [] [] []).1
    (by decide) (by decide) (by decide)

/-- C8: on a Messages request, resetAllRateLimits runs exactly once before
the executor when isAllRateLimited holds for the resolved model, and not at
all otherwise; after the reset no account has an active limit for any model
or time, so the executor re-checks real availability. -/
theorem c8_optimistic_reset (now : Nat) (modelId : String) (pool : List Account) :
    ((anthropicPreamble now modelId pool).1.count PAct.resetAll =
        if isAllRateLimited now modelId pool then 1 else 0)
  ∧ (isAllRateLimited now modelId pool = true →
      anthropicPreamble now modelId pool = ([PAct.resetAll], resetAllRateLimits pool))
  ∧ (isAllRateLimited now modelId pool = false →
      anthropicPreamble now modelId pool = ([], pool))
  ∧ (∀ a ∈ resetAllRateLimits pool, hasActiveLimit now modelId a = false) := by
  refine ⟨?_, ?_, ?_, ?_⟩
  · by_cases h : isAllRateLimited now modelId pool <;>
      simp [anthropicPreamble, h, List.count_cons, List.count_nil]
  · intro h
    simp [anthropicPreamble, h]
  · intro h
    simp [anthropicPreamble, h]
  · intro a ha
    simp only [resetAllRateLimits] at ha
    rcases List.mem_map.mp ha with ⟨b, _, hba⟩
    rw [← hba]
    simp [hasActiveLimit, lookupRL]

/-- C8 witness: with a single account rate-limited for gemini-2.5-pro the
preamble performs the reset exactly once and hands the cleared pool to the
executor. -/
theorem c8_optimistic_reset_witness :
    isAllRateLimited 0 "gemini-2.5-pro" [rlAccount] = true ∧
    anthropicPreamble 0 "gemini-2.5-pro" [rlAccount] =
      ([PAct.resetAll], resetAllRateLimits [rlAccount]) :=
  ⟨by decide, (c8_optimistic_reset 0 "gemini-2.5-pro" [rlAccount]).2.1 (by decide)⟩

theorem refreshAttempted_append (l1 l2 : List QAct) :
    refreshAttempted (l1 ++ l2) = refreshAttempted l1 ++ refreshAttempted l2 := by
  simp [refreshAttempted]

theorem refreshAttempted_sweep (ok : String → Bool) (l : List Account) :
    refreshAttempted (refreshSweep ok l) = l.map Account.email := by
  induction l with
  | nil => rfl
  | cons a t ih =>
    simp only [refreshSweep, refreshAttempted_append, ih, List.map_cons]
    by_cases h : ok a.email = true
    · rw [if_pos h]
      rfl
    · rw [if_neg h]
      rfl

/-- C9: a refreshAll entered while a sweep is in flight returns at once,
refreshing nothing and leaving the flag set; otherwise the sweep attempts
every enabled non-invalid account in pool order — a per-account failure
(ok false) is recorded and the sweep continues through the remaining
accounts — and the flag is clear afterwards. -/
theorem c9_refresh_isolation (ok : String → Bool) (accounts : List Account) :
    (refreshAll true ok accounts = ([], true))
  ∧ (refreshAttempted (refreshAll false ok accounts).1 =
      (accounts.filter (fun a => a.enabled && !a.isInvalid)).map Account.email)
  ∧ ((refreshAll false ok accounts).2 = false) := by
  refine ⟨rfl, ?_, rfl⟩
  simp [refreshAll, refreshAttempted_sweep]

/-- C10: a 429 on an empty-response refetch marks the account rate-limited
with exactly parseResetTime of the Retry-After header and body — none when
the server gives no reset — and throws an error beginning
'429 RESOURCE_EXHAUSTED during retry'; by contrast the smart-backoff value
used on the primary 429 path never drops below MIN_BACKOFF_MS absent a
server reset. -/
theorem c10_empty_retry_429 (cfg : Cfg) (k idx cap : Nat) (cur r2 : UpResp)
    (rest : List UpResp) :
    (cur.hasContent = false → k < cfg.maxEmptyRetries → r2.status = 429 →
      streamAttemptRun cfg (.emptyLoop k cur idx cap) (r2 :: rest) =
        ([AAct.sleepMs (getExponentialBackoffMs 500 k), AAct.refetch,
          AAct.markRateLimited (parseResetTime r2.retryAfter r2.body)],
         .thrown .rateLimitedRetry ("429 RESOURCE_EXHAUSTED during retry: " ++ r2.body)))
  ∧ parseResetTime quotaResp429.retryAfter quotaResp429.body = none
  ∧ (∀ (errorText : String) (attempt : Nat),
      MIN_BACKOFF_MS ≤ calculateSmartBackoff errorText none attempt) := by
  refine ⟨?_, by decide, ?_⟩
  · intro hc hk hs
    have hok : respOk r2 = false := respOk_eq_false_of_status hs (Or.inr (by omega))
    have her : erIter cfg k cur idx cap r2 =
        .done [AAct.sleepMs (getExponentialBackoffMs 500 k), AAct.refetch,
          AAct.markRateLimited (parseResetTime r2.retryAfter r2.body)]
          (.thrown .rateLimitedRetry ("429 RESOURCE_EXHAUSTED during retry: " ++ r2.body)) := by
      simp [erIter, hc, Nat.not_le.mpr hk, classifyEmptyRetry, hok, hs]
    exact streamRun_er_done cfg k cur idx cap r2 rest _ _ her
  · intro errorText attempt
    cases hr : parseRateLimitReason errorText <;>
      simp [calculateSmartBackoff, hr, smartBackoffByReason]

/-- C10 witness: a refetched 429 with no Retry-After and a quota body marks
the account rate-limited with none and throws the retry-time
RESOURCE_EXHAUSTED error. -/
theorem c10_empty_retry_429_witness :
    streamAttemptRun testCfg (.emptyLoop 0 okEmptyResp 0 0) [quotaResp429] =
      ([AAct.sleepMs (getExponentialBackoffMs 500 0), AAct.refetch,
        AAct.markRateLimited none],
       .thrown .rateLimitedRetry
         ("429 RESOURCE_EXHAUSTED during retry: " ++ quotaResp429.body)) := by
  have h := (c10_empty_retry_429 testCfg 0 0 0 okEmptyResp quotaResp429 []).1
    (by decide) (by decide) (by decide)
  rw [h]
  decide

end Antigravity
